import Mathlib

/-! Kernel autotuning and execution of InfiniTensor.

A shallow embedding of

* `src/kernels/cuda/conv.cc`: `ConvCuDnnPerfRecord`, `convCudnn::cuDNNDescriptorAccess`,
  `convCudnn::cuDNNUnfused`, the two `convCudnn::compute` overloads and `convCudnn::tune`;
* `src/kernels/bang/transpose.cc`: `TransposeCnnl::compute`;
* `src/kernels/bang/trigon.cc`: `TrigonCnnl::compute` and its leaf kernels.

Conventions of the embedding.

* The backend libraries (cuDNN, CNNL) are stubs: records of pure functions that give, for the
  arguments of a call, the status the call returns and the values it writes.  A stub is
  deterministic by construction.
* Only the statuses that the source inspects by hand are stubbed.  Calls wrapped in
  `checkCudnnError` / `checkCnnlError` (descriptor creation, setting and destruction) and
  `getWorkspace` return normally.
* Device state is passed explicitly: the number of live backend descriptors, the list of
  backend calls issued so far and the contents of the operator's output buffer.
* A fatal failure (`IT_ASSERT`, `IT_TODO_HALT`, the `std::bad_cast` of a failed
  `dynamic_cast` to a reference) is the `fatal` outcome; it keeps the device state reached
  when the failure was raised.
* A record passed as `const PerfRecord &` keeps its dynamic type (`PerfRecordRef`); a record
  returned as `PerfRecord` by value is the base part alone (`ConvCuDnnPerfRecord.toPerfRecord`),
  as in `return ret;` of `tune`.
* `double` times are finite and are represented exactly as integers, counting units of
  `2^-1074` ms (every finite `double` is an integer multiple of `2^-1074`); the order on finite
  doubles is the order on these integers.
* Tensor elements are computed in exact integer arithmetic.
* `record.algo` and `record.mode` are natural numbers; an index outside `ALGOS` or `MODES`
  (undefined behaviour in the source) is the fatal outcome `indexOutOfRange`.
* `ActType` has the three values the `switch` of `cuDNNDescriptorAccess` names.
-/

namespace infini

/-! ## Outcomes -/

/-- Reasons of a fatal failure. -/
inductive Failure where
  /-- Raised by `IT_TODO_HALT()`. -/
  | todoHalt
  /-- Raised by a failed `IT_ASSERT`. -/
  | assertion (msg : String)
  /-- An index outside a C array (`ALGOS[record.algo]`, `MODES[record.mode]`). -/
  | indexOutOfRange
  /-- Thrown by `dynamic_cast<const ConvCuDnnPerfRecord &>` on an object of another dynamic
  type (`std::bad_cast`). -/
  | badCast
  deriving DecidableEq, Repr

/-- Outcome of a call over device state `σ`: a normal return with a value, or a fatal failure. -/
inductive Result (σ : Type) (α : Type) where
  | ok (a : α) (st : σ)
  | fatal (e : Failure) (st : σ)
  deriving DecidableEq, Repr

/-- Device state a result ends in. -/
def Result.state {σ α : Type} : Result σ α → σ
  | .ok _ st => st
  | .fatal _ st => st

/-- Whether the call returned normally. -/
def Result.isOk {σ α : Type} : Result σ α → Bool
  | .ok _ _ => true
  | .fatal _ _ => false

/-- A counted loop `for (k : ks) body`, left at the first fatal failure. -/
def forEach {σ τ : Type} : List Nat → (Nat → τ → σ → Result σ τ) → τ → σ → Result σ τ
  | [], _, s, st => .ok s st
  | k :: ks, body, s, st =>
    match body k s st with
    | .ok s' st' => forEach ks body s' st'
    | .fatal e st' => .fatal e st'

/-! ## cuDNN enumerations and constants (conv.cc:10-22) -/

inductive cudnnStatus_t where
  | CUDNN_STATUS_SUCCESS
  | CUDNN_STATUS_BAD_PARAM
  | CUDNN_STATUS_NOT_SUPPORTED
  | CUDNN_STATUS_EXECUTION_FAILED
  deriving DecidableEq, Repr

inductive cudnnConvolutionFwdAlgo_t where
  | CUDNN_CONVOLUTION_FWD_ALGO_IMPLICIT_GEMM
  | CUDNN_CONVOLUTION_FWD_ALGO_IMPLICIT_PRECOMP_GEMM
  | CUDNN_CONVOLUTION_FWD_ALGO_GEMM
  | CUDNN_CONVOLUTION_FWD_ALGO_DIRECT
  | CUDNN_CONVOLUTION_FWD_ALGO_FFT
  | CUDNN_CONVOLUTION_FWD_ALGO_FFT_TILING
  | CUDNN_CONVOLUTION_FWD_ALGO_WINOGRAD
  | CUDNN_CONVOLUTION_FWD_ALGO_WINOGRAD_NONFUSED
  deriving DecidableEq, Repr

inductive cudnnConvolutionMode_t where
  | CUDNN_CONVOLUTION
  | CUDNN_CROSS_CORRELATION
  deriving DecidableEq, Repr

inductive cudnnActivationMode_t where
  | CUDNN_ACTIVATION_RELU
  | CUDNN_ACTIVATION_SIGMOID
  | CUDNN_ACTIVATION_IDENTITY
  deriving DecidableEq, Repr

open cudnnStatus_t cudnnConvolutionFwdAlgo_t cudnnConvolutionMode_t cudnnActivationMode_t

def N_ALGO : Nat := 8

def ALGOS : List cudnnConvolutionFwdAlgo_t :=
  [CUDNN_CONVOLUTION_FWD_ALGO_IMPLICIT_GEMM,
   CUDNN_CONVOLUTION_FWD_ALGO_IMPLICIT_PRECOMP_GEMM,
   CUDNN_CONVOLUTION_FWD_ALGO_GEMM,
   CUDNN_CONVOLUTION_FWD_ALGO_DIRECT,
   CUDNN_CONVOLUTION_FWD_ALGO_FFT,
   CUDNN_CONVOLUTION_FWD_ALGO_FFT_TILING,
   CUDNN_CONVOLUTION_FWD_ALGO_WINOGRAD,
   CUDNN_CONVOLUTION_FWD_ALGO_WINOGRAD_NONFUSED]

def N_MODE : Nat := 2

def MODES : List cudnnConvolutionMode_t :=
  [CUDNN_CONVOLUTION, CUDNN_CROSS_CORRELATION]

/-- The value of `std::numeric_limits<double>::max()`, `(2^53 - 1) * 2^971`, in units of
`2^-1074`: the integer `(2^53 - 1) * 2^2045`, written with a shift. -/
def DBL_MAX : Int := Int.ofNat ((2 ^ 53 - 1) <<< 2045)

/-! ## Performance record (conv.cc:24-29) -/

/-- The base record `PerfRecord`, as far as the kernel uses it: the member `time`. -/
structure PerfRecord where
  time : Int
  deriving DecidableEq, Repr

/-- The record `ConvCuDnnPerfRecord`; `time` is the member inherited from `PerfRecord`. -/
structure ConvCuDnnPerfRecord where
  time : Int
  algo : Nat
  mode : Nat
  workspaceSize : Nat
  fuseAct : Bool
  deriving DecidableEq, Repr

/-- A default-constructed record.  The member initialisers of the source fix every field but
`time`, whose initial value `time0` is whatever `PerfRecord` leaves there. -/
def ConvCuDnnPerfRecord.init (time0 : Int) : ConvCuDnnPerfRecord :=
  { time := time0, algo := 0, mode := 1, workspaceSize := 100000, fuseAct := false }

/-- Copy of a `ConvCuDnnPerfRecord` into a `PerfRecord` object, as made by returning it from a
function whose return type is `PerfRecord`: the base part is copied, the members `algo`,
`mode`, `workspaceSize` and `fuseAct` are not part of the result. -/
def ConvCuDnnPerfRecord.toPerfRecord (r : ConvCuDnnPerfRecord) : PerfRecord :=
  { time := r.time }

/-- An object referred to by a `const PerfRecord &`, with its dynamic type: a `PerfRecord`
object itself, or the base part of a `ConvCuDnnPerfRecord` object. -/
inductive PerfRecordRef where
  | base (r : PerfRecord)
  | convCuDnn (r : ConvCuDnnPerfRecord)
  deriving DecidableEq, Repr

/-! ## Operator and descriptors -/

/-- The activation kinds the kernel distinguishes (`op->getAct()`). -/
inductive ActType where
  | None
  | Relu
  | Sigmoid
  deriving DecidableEq, Repr

/-- What the kernel reads of a `ConvObj`. -/
structure ConvObj where
  /-- Value of `op->getInputs().size()`. -/
  numInputs : Nat
  /-- Contents of `getInputs(0)`, row-major NCHW. -/
  inData : List Int
  /-- Contents of `getInputs(1)`, row-major FCRS. -/
  knData : List Int
  /-- Components of `getNCHWFRS()`. -/
  n : Int
  c : Int
  h : Int
  w : Int
  f : Int
  r : Int
  s : Int
  /-- Value of `getChannelPerGroup()`. -/
  cpg : Int
  /-- Components of `getPadStrideDilation()`. -/
  ph : Int
  pw : Int
  sh : Int
  sw : Int
  dh : Int
  dw : Int
  /-- Value of `getAct()`. -/
  act : ActType
  /-- Value of `getOutput()->getDims()`. -/
  outDims : List Int
  deriving DecidableEq, Repr

/-- A 4-d NCHW float tensor descriptor. -/
structure cudnnTensorDescriptor_t where
  n : Int
  c : Int
  h : Int
  w : Int
  deriving DecidableEq, Repr

/-- A 4-d NCHW float filter descriptor. -/
structure cudnnFilterDescriptor_t where
  k : Int
  c : Int
  h : Int
  w : Int
  deriving DecidableEq, Repr

/-- A 2-d convolution descriptor with its group count. -/
structure cudnnConvolutionDescriptor_t where
  pad_h : Int
  pad_w : Int
  u : Int
  v : Int
  dilation_h : Int
  dilation_w : Int
  mode : cudnnConvolutionMode_t
  groupCount : Int
  deriving DecidableEq, Repr

structure cudnnActivationDescriptor_t where
  mode : cudnnActivationMode_t
  deriving DecidableEq, Repr

/-- The descriptors in the tuple returned by `cuDNNDescriptorAccess`. -/
structure ConvDescriptors where
  inDesc : cudnnTensorDescriptor_t
  knDesc : cudnnFilterDescriptor_t
  biasDesc : cudnnTensorDescriptor_t
  convDesc : cudnnConvolutionDescriptor_t
  actDesc : cudnnActivationDescriptor_t
  outDesc : cudnnTensorDescriptor_t
  deriving DecidableEq, Repr

/-! ## Device state and the cuDNN stub -/

/-- Backend calls whose order the kernel determines. -/
inductive BackendCall where
  | getConvolutionForwardWorkspaceSize (d : ConvDescriptors) (algo : cudnnConvolutionFwdAlgo_t)
  | getWorkspace (size : Nat)
  | convolutionForward (d : ConvDescriptors) (algo : cudnnConvolutionFwdAlgo_t) (wsSize : Nat)
  | timeit (d : ConvDescriptors) (algo : cudnnConvolutionFwdAlgo_t) (wsSize : Nat)
  deriving DecidableEq, Repr

/-- Device state seen through a `CudaRuntimeObj`. -/
structure CudaState where
  /-- Number of cuDNN descriptors created and not yet destroyed. -/
  liveDescriptors : Nat
  /-- Backend calls issued so far, oldest first. -/
  calls : List BackendCall
  /-- Contents of the operator's output buffer. -/
  outData : List Int
  deriving DecidableEq, Repr

/-- A stubbed cuDNN: the answer of each call is a fixed function of the call's arguments. -/
structure CudnnStub where
  /-- The dims written by `cudnnGetConvolution2dForwardOutputDim`. -/
  getConvolution2dForwardOutputDim :
    cudnnConvolutionDescriptor_t → cudnnTensorDescriptor_t → cudnnFilterDescriptor_t →
      Int × Int × Int × Int
  /-- Status of `cudnnGetConvolutionForwardWorkspaceSize` and the size it stores. -/
  getConvolutionForwardWorkspaceSize :
    ConvDescriptors → cudnnConvolutionFwdAlgo_t → cudnnStatus_t × Nat
  /-- Status of `cudnnConvolutionForward` run with a workspace of the given size. -/
  convolutionForward : ConvDescriptors → cudnnConvolutionFwdAlgo_t → Nat → cudnnStatus_t
  /-- Time measured by `timeit` for the forward call. -/
  timeit : ConvDescriptors → cudnnConvolutionFwdAlgo_t → Nat → Int

def CudaState.create (st : CudaState) : CudaState :=
  { st with liveDescriptors := st.liveDescriptors + 1 }

def CudaState.destroy (st : CudaState) : CudaState :=
  { st with liveDescriptors := st.liveDescriptors - 1 }

def CudaState.log (st : CudaState) (c : BackendCall) : CudaState :=
  { st with calls := st.calls ++ [c] }

/-! ## The forward operation in exact arithmetic -/

/-- Element `(n, c, h, w)` of a row-major tensor whose three inner dims are `C`, `H`, `W`;
positions outside the `H × W` plane read as the zero padding. -/
def at4 (data : List Int) (C H W : Int) (n c h w : Int) : Int :=
  if 0 ≤ h ∧ h < H ∧ 0 ≤ w ∧ w < W then
    data.getD (((n * C + c) * H + h) * W + w).toNat 0
  else 0

/-- Filter tap read for window position `(r, s)`: `CUDNN_CROSS_CORRELATION` reads the filter
as stored, `CUDNN_CONVOLUTION` reads it flipped in both spatial dims. -/
def filterTap (mode : cudnnConvolutionMode_t) (R S r s : Int) : Int × Int :=
  match mode with
  | CUDNN_CROSS_CORRELATION => (r, s)
  | CUDNN_CONVOLUTION => (R - 1 - r, S - 1 - s)

/-- Output element `(n, k, p, q)` of the operation the descriptors select, on input `x` and
filter `wt`. -/
def convolutionForwardAt (d : ConvDescriptors) (x wt : List Int) (n k p q : Int) : Int :=
  let grp := k / (d.knDesc.k / d.convDesc.groupCount)
  ((List.range d.knDesc.c.toNat).map fun (c : Nat) =>
    ((List.range d.knDesc.h.toNat).map fun (r : Nat) =>
      ((List.range d.knDesc.w.toNat).map fun (s : Nat) =>
        let tap := filterTap d.convDesc.mode d.knDesc.h d.knDesc.w r s
        at4 x d.inDesc.c d.inDesc.h d.inDesc.w n (grp * d.knDesc.c + c)
            (p * d.convDesc.u - d.convDesc.pad_h + r * d.convDesc.dilation_h)
            (q * d.convDesc.v - d.convDesc.pad_w + s * d.convDesc.dilation_w)
          * at4 wt d.knDesc.c d.knDesc.h d.knDesc.w k c tap.1 tap.2).sum).sum).sum

/-- The buffer a successful `cudnnConvolutionForward` leaves in `y`:
`alpha * result + beta * y`, over the dims of the output descriptor, row-major. -/
def convolutionForwardOutput (alpha beta : Int) (d : ConvDescriptors) (x wt y : List Int) :
    List Int :=
  let K := d.outDesc.c.toNat
  let P := d.outDesc.h.toNat
  let Q := d.outDesc.w.toNat
  (List.range (d.outDesc.n.toNat * K * P * Q)).map fun (i : Nat) =>
    alpha * convolutionForwardAt d x wt (i / (K * P * Q) : Nat) (i / (P * Q) % K : Nat)
        (i / Q % P : Nat) (i % Q : Nat)
      + beta * y.getD i 0

/-- Effect of one `cudnnConvolutionForward` call: the call is recorded, and when the stub
reports success the output buffer holds the result. -/
def cudnnConvolutionForward (b : CudnnStub) (op : ConvObj) (alpha beta : Int)
    (d : ConvDescriptors) (algo : cudnnConvolutionFwdAlgo_t) (wsSize : Nat) (st : CudaState) :
    cudnnStatus_t × CudaState :=
  let stat := b.convolutionForward d algo wsSize
  let st1 := st.log (.convolutionForward d algo wsSize)
  if stat = CUDNN_STATUS_SUCCESS then
    (stat, { st1 with
      outData := convolutionForwardOutput alpha beta d op.inData op.knData st1.outData })
  else (stat, st1)

/-- The six `cudnnDestroy...` calls that end `cuDNNUnfused` and the body of the loop in `tune`. -/
def destroyDescriptors (st : CudaState) : CudaState :=
  st.destroy.destroy.destroy.destroy.destroy.destroy

/-! ## convCudnn (conv.cc:31-274) -/

namespace convCudnn

/-- Model of `convCudnn::cuDNNDescriptorAccess` (conv.cc:37-119). -/
def cuDNNDescriptorAccess (b : CudnnStub) (op : ConvObj) (record : ConvCuDnnPerfRecord)
    (st : CudaState) : Result CudaState ConvDescriptors :=
  if op.numInputs > 2 then .fatal .todoHalt st
  else
    let cpg := op.cpg
    let g := op.c.tdiv cpg
    let channelsPerGrp := cpg
    let channels := op.c
    -- get inputs
    let st := st.create
    let inDesc : cudnnTensorDescriptor_t := ⟨op.n, channels, op.h, op.w⟩
    -- get kernels
    let st := st.create
    let knDesc : cudnnFilterDescriptor_t := ⟨op.f, channelsPerGrp, op.r, op.s⟩
    -- get bias
    let st := st.create
    let biasDesc : cudnnTensorDescriptor_t := ⟨1, op.f, 1, 1⟩
    -- get convolution descriptor
    let st := st.create
    match MODES[record.mode]? with
    | none => .fatal .indexOutOfRange st
    | some mode =>
      let convDesc : cudnnConvolutionDescriptor_t :=
        ⟨op.ph, op.pw, op.sh, op.sw, op.dh, op.dw, mode, if g > 1 then g else 1⟩
      -- get activation descriptor
      let st := st.create
      let actDesc : cudnnActivationDescriptor_t :=
        match op.act with
        | .Relu => ⟨CUDNN_ACTIVATION_RELU⟩
        | .Sigmoid => ⟨CUDNN_ACTIVATION_SIGMOID⟩
        | .None => ⟨CUDNN_ACTIVATION_IDENTITY⟩
      let out := b.getConvolution2dForwardOutputDim convDesc inDesc knDesc
      let st := st.create
      let outDesc : cudnnTensorDescriptor_t := ⟨out.1, out.2.1, out.2.2.1, out.2.2.2⟩
      if [out.1, out.2.1, out.2.2.1, out.2.2.2] = op.outDims then
        .ok ⟨inDesc, knDesc, biasDesc, convDesc, actDesc, outDesc⟩ st
      else
        .fatal (.assertion "cuDNN output shape mismatches with OP output shape") st

/-- Model of `convCudnn::cuDNNUnfused` (conv.cc:120-197). -/
def cuDNNUnfused (b : CudnnStub) (op : ConvObj) (record : ConvCuDnnPerfRecord)
    (st : CudaState) : Result CudaState Bool :=
  match cuDNNDescriptorAccess b op record st with
  | .fatal e st => .fatal e st
  | .ok d st =>
    match ALGOS[record.algo]? with
    | none => .fatal .indexOutOfRange st
    | some algo =>
      -- get workspace
      let q := b.getConvolutionForwardWorkspaceSize d algo
      let st := st.log (.getConvolutionForwardWorkspaceSize d algo)
      if q.1 ≠ CUDNN_STATUS_SUCCESS then .ok false st
      else
        let wsSize := q.2
        let st := st.log (.getWorkspace wsSize)
        let fw := cudnnConvolutionForward b op 1 0 d algo wsSize st
        if fw.1 ≠ CUDNN_STATUS_SUCCESS then .ok false fw.2
        else .ok true (destroyDescriptors fw.2)

/-- Model of `convCudnn::compute(op, record, context)` (conv.cc:266-273).  The
`dynamic_cast` to `const ConvCuDnnPerfRecord &` throws unless the object is a
`ConvCuDnnPerfRecord`. -/
def compute (b : CudnnStub) (op : ConvObj) (_record : PerfRecordRef) (st : CudaState) :
    Result CudaState Unit :=
  match _record with
  | .base _ => .fatal .badCast st
  | .convCuDnn record =>
    match cuDNNUnfused b op record st with
    | .fatal e st => .fatal e st
    | .ok success st =>
      if success then .ok () st else .fatal (.assertion "success") st

/-- Model of `convCudnn::compute(op, context)` (conv.cc:199-202); `time0` is the initial
value of the `time` member of the default-constructed record. -/
def computeDefault (b : CudnnStub) (op : ConvObj) (time0 : Int) (st : CudaState) :
    Result CudaState Unit :=
  compute b op (.convCuDnn (ConvCuDnnPerfRecord.init time0)) st

/-- The two records `ret` and `tmp_ret` of `tune`. -/
structure TuneVars where
  ret : ConvCuDnnPerfRecord
  tmp_ret : ConvCuDnnPerfRecord
  deriving DecidableEq, Repr

/-- Body of the inner loop of `convCudnn::tune` (conv.cc:214-257) for mode index `i` and
algorithm index `j`.  A `continue` is a normal end of the body. -/
def tuneBody (b : CudnnStub) (op : ConvObj) (i j : Nat) (v : TuneVars) (st : CudaState) :
    Result CudaState TuneVars :=
  let tmp_ret := { v.tmp_ret with algo := j, mode := i }
  match cuDNNDescriptorAccess b op tmp_ret st with
  | .fatal e st => .fatal e st
  | .ok d st =>
    match ALGOS[tmp_ret.algo]? with
    | none => .fatal .indexOutOfRange st
    | some algo =>
      -- get workspace
      let q := b.getConvolutionForwardWorkspaceSize d algo
      let st := st.log (.getConvolutionForwardWorkspaceSize d algo)
      if q.1 ≠ CUDNN_STATUS_SUCCESS then .ok ⟨v.ret, tmp_ret⟩ st
      else
        let wsSize := q.2
        let st := st.log (.getWorkspace wsSize)
        let fw := cudnnConvolutionForward b op 1 0 d algo wsSize st
        if fw.1 ≠ CUDNN_STATUS_SUCCESS then .ok ⟨v.ret, tmp_ret⟩ fw.2
        else
          -- `timeit` repeats the forward call that has just succeeded: the stub answers it
          -- the same way, so the output buffer is rewritten with the same contents
          let tmp_ret := { tmp_ret with time := b.timeit d algo wsSize }
          let st := fw.2.log (.timeit d algo wsSize)
          -- Update the tune result
          let ret := if v.ret.time > tmp_ret.time then tmp_ret else v.ret
          .ok ⟨ret, tmp_ret⟩ (destroyDescriptors st)

/-- The search of `convCudnn::tune` (conv.cc:206-262): the two loops, and the value the local
`ret` has after them, whose `algo` and `mode` the source prints at conv.cc:261-262.  `time0`
is the initial value of the `time` member of the default-constructed `tmp_ret`. -/
def tuneLoops (b : CudnnStub) (op : ConvObj) (time0 : Int) (st : CudaState) :
    Result CudaState ConvCuDnnPerfRecord :=
  let ret := { ConvCuDnnPerfRecord.init time0 with time := DBL_MAX }
  let tmp_ret := ConvCuDnnPerfRecord.init time0
  match forEach (List.range N_MODE)
      (fun i => forEach (List.range N_ALGO) (fun j => tuneBody b op i j)) ⟨ret, tmp_ret⟩ st with
  | .ok v st => .ok v.ret st
  | .fatal e st => .fatal e st

/-- Model of `convCudnn::tune` (conv.cc:204-264).  The return type is `PerfRecord`, by value:
`return ret;` (conv.cc:263) hands back the base part of `ret` alone. -/
def tune (b : CudnnStub) (op : ConvObj) (time0 : Int) (st : CudaState) :
    Result CudaState PerfRecord :=
  match tuneLoops b op time0 st with
  | .ok ret st => .ok ret.toPerfRecord st
  | .fatal e st => .fatal e st

end convCudnn

/-! ## CNNL enumerations, descriptors and stub (transpose.cc, trigon.cc) -/

inductive cnnlStatus_t where
  | CNNL_STATUS_SUCCESS
  | CNNL_STATUS_BAD_PARAM
  | CNNL_STATUS_NOT_SUPPORTED
  | CNNL_STATUS_EXECUTION_FAILED
  deriving DecidableEq, Repr

inductive cnnlTensorLayout_t where
  | CNNL_LAYOUT_NCHW
  | CNNL_LAYOUT_ARRAY
  deriving DecidableEq, Repr

inductive cnnlTrigonFunctionMode_t where
  | CNNL_TRIGON_SIN
  | CNNL_TRIGON_COS
  | CNNL_TRIGON_TAN
  | CNNL_TRIGON_ASIN
  | CNNL_TRIGON_ACOS
  | CNNL_TRIGON_ATAN
  | CNNL_TRIGON_SINH
  | CNNL_TRIGON_COSH
  | CNNL_TRIGON_TANH
  | CNNL_TRIGON_ASINH
  | CNNL_TRIGON_ACOSH
  | CNNL_TRIGON_ATANH
  deriving DecidableEq, Repr

inductive cnnlComputationPreference_t where
  | CNNL_COMPUTATION_FAST
  | CNNL_COMPUTATION_HIGH_PRECISION
  deriving DecidableEq, Repr

open cnnlStatus_t cnnlTensorLayout_t cnnlTrigonFunctionMode_t cnnlComputationPreference_t

/-- A float tensor descriptor with its layout and dims. -/
structure cnnlTensorDescriptor_t where
  layout : cnnlTensorLayout_t
  dims : List Int
  deriving DecidableEq, Repr

structure cnnlTransposeDescriptor_t where
  permute : List Int
  deriving DecidableEq, Repr

structure cnnlTrigonDescriptor_t where
  mode : cnnlTrigonFunctionMode_t
  deriving DecidableEq, Repr

/-- Backend calls issued by the BANG kernels. -/
inductive BangCall where
  | getTransposeWorkspaceSize (aDesc : cnnlTensorDescriptor_t) (opDesc : cnnlTransposeDescriptor_t)
  | getWorkspace (size : Nat)
  | transpose_v2 (opDesc : cnnlTransposeDescriptor_t) (aDesc cDesc : cnnlTensorDescriptor_t)
      (wsSize : Nat)
  | trigonForward (opDesc : cnnlTrigonDescriptor_t) (aDesc cDesc : cnnlTensorDescriptor_t)
  deriving DecidableEq, Repr

/-- Device state seen through a `BangRuntimeObj`. -/
structure BangState where
  /-- Number of CNNL descriptors created and not yet destroyed. -/
  liveDescriptors : Nat
  /-- Backend calls issued so far, oldest first. -/
  calls : List BangCall
  /-- Contents of the operator's output buffer. -/
  outData : List Int
  deriving DecidableEq, Repr

/-- A stubbed CNNL.  An execution call answers with its status and with the contents it leaves
in the output buffer, which after a failure may be any partial result. -/
structure CnnlStub where
  /-- The size stored by `cnnlGetTransposeWorkspaceSize`. -/
  getTransposeWorkspaceSize : cnnlTensorDescriptor_t → cnnlTransposeDescriptor_t → Nat
  /-- Answer of `cnnlTranspose_v2` on the input data and the previous output contents. -/
  transpose_v2 : cnnlTransposeDescriptor_t → cnnlTensorDescriptor_t → List Int →
    cnnlTensorDescriptor_t → List Int → Nat → cnnlStatus_t × List Int
  /-- Answer of `cnnlTrigonForward` on the input data and the previous output contents. -/
  trigonForward : cnnlTrigonDescriptor_t → cnnlTensorDescriptor_t → List Int →
    cnnlTensorDescriptor_t → List Int → cnnlStatus_t × List Int

def BangState.create (st : BangState) : BangState :=
  { st with liveDescriptors := st.liveDescriptors + 1 }

def BangState.destroy (st : BangState) : BangState :=
  { st with liveDescriptors := st.liveDescriptors - 1 }

def BangState.log (st : BangState) (c : BangCall) : BangState :=
  { st with calls := st.calls ++ [c] }

/-- What the kernel reads of a `TransposeObj`. -/
structure TransposeObj where
  /-- Contents of `getInputs(0)`. -/
  aData : List Int
  /-- Value of `getInputs(0)->getDims()`. -/
  dimin : List Int
  /-- Value of `getOutput()->getDims()`. -/
  dimout : List Int
  /-- Value of `getPermute()`. -/
  permute : List Int
  deriving DecidableEq, Repr

/-- What the kernel reads of a `UnaryObj`. -/
structure UnaryObj where
  /-- Contents of `getInputs(0)`. -/
  aData : List Int
  /-- Value of `getInputs(0)->getDims()`. -/
  aDim : List Int
  /-- Value of `getOutput()->getDims()`. -/
  cDim : List Int
  deriving DecidableEq, Repr

namespace TransposeCnnl

/-- Model of `TransposeCnnl::compute` (transpose.cc:7-48). -/
def compute (b : CnnlStub) (op : TransposeObj) (st : BangState) : Result BangState Unit :=
  let st := st.create
  let aDesc : cnnlTensorDescriptor_t := ⟨CNNL_LAYOUT_ARRAY, op.dimin⟩
  let st := st.create
  let cDesc : cnnlTensorDescriptor_t := ⟨CNNL_LAYOUT_ARRAY, op.dimout⟩
  let st := st.create
  let opDesc : cnnlTransposeDescriptor_t := ⟨op.permute⟩
  let wsSize := b.getTransposeWorkspaceSize aDesc opDesc
  let st := st.log (.getTransposeWorkspaceSize aDesc opDesc)
  let st := st.log (.getWorkspace wsSize)
  let ans := b.transpose_v2 opDesc aDesc op.aData cDesc st.outData wsSize
  let st := { st.log (.transpose_v2 opDesc aDesc cDesc wsSize) with outData := ans.2 }
  if ans.1 ≠ CNNL_STATUS_SUCCESS then .ok () st
  else .ok () st.destroy.destroy.destroy

end TransposeCnnl

/-- The abstract kernel `TrigonCnnl`: a leaf kernel fixes the two virtual members. -/
structure TrigonCnnl where
  getOpType : cnnlTrigonFunctionMode_t
  getPrefer : cnnlComputationPreference_t
  deriving DecidableEq, Repr

def SinCnnl : TrigonCnnl := ⟨CNNL_TRIGON_SIN, CNNL_COMPUTATION_HIGH_PRECISION⟩
def CosCnnl : TrigonCnnl := ⟨CNNL_TRIGON_COS, CNNL_COMPUTATION_HIGH_PRECISION⟩
def TanCnnl : TrigonCnnl := ⟨CNNL_TRIGON_TAN, CNNL_COMPUTATION_HIGH_PRECISION⟩
def ASinCnnl : TrigonCnnl := ⟨CNNL_TRIGON_ASIN, CNNL_COMPUTATION_HIGH_PRECISION⟩
def ACosCnnl : TrigonCnnl := ⟨CNNL_TRIGON_ACOS, CNNL_COMPUTATION_HIGH_PRECISION⟩
def ATanCnnl : TrigonCnnl := ⟨CNNL_TRIGON_ATAN, CNNL_COMPUTATION_HIGH_PRECISION⟩
def SinHCnnl : TrigonCnnl := ⟨CNNL_TRIGON_SINH, CNNL_COMPUTATION_HIGH_PRECISION⟩
def CosHCnnl : TrigonCnnl := ⟨CNNL_TRIGON_COSH, CNNL_COMPUTATION_HIGH_PRECISION⟩
def TanHCnnl : TrigonCnnl := ⟨CNNL_TRIGON_TANH, CNNL_COMPUTATION_HIGH_PRECISION⟩
def ASinHCnnl : TrigonCnnl := ⟨CNNL_TRIGON_ASINH, CNNL_COMPUTATION_HIGH_PRECISION⟩
def ACosHCnnl : TrigonCnnl := ⟨CNNL_TRIGON_ACOSH, CNNL_COMPUTATION_HIGH_PRECISION⟩
def ATanHCnnl : TrigonCnnl := ⟨CNNL_TRIGON_ATANH, CNNL_COMPUTATION_HIGH_PRECISION⟩

namespace TrigonCnnl

/-- Model of `TrigonCnnl::compute` (trigon.cc:9-42). -/
def compute (k : TrigonCnnl) (b : CnnlStub) (op : UnaryObj) (st : BangState) :
    Result BangState Unit :=
  let st := st.create
  let aDesc : cnnlTensorDescriptor_t := ⟨CNNL_LAYOUT_NCHW, op.aDim⟩
  let st := st.create
  let cDesc : cnnlTensorDescriptor_t := ⟨CNNL_LAYOUT_NCHW, op.cDim⟩
  let st := st.create
  let opDesc : cnnlTrigonDescriptor_t := ⟨k.getOpType⟩
  let ans := b.trigonForward opDesc aDesc op.aData cDesc st.outData
  let st := { st.log (.trigonForward opDesc aDesc cDesc) with outData := ans.2 }
  if ans.1 ≠ CNNL_STATUS_SUCCESS then .ok () st
  else .ok () st.destroy.destroy.destroy

end TrigonCnnl

/-! ## Vocabulary of the statements -/

/-- The dims of a tensor descriptor as a vector. -/
def cudnnTensorDescriptor_t.dims (t : cudnnTensorDescriptor_t) : List Int :=
  [t.n, t.c, t.h, t.w]

/-- The descriptor values that `cuDNNDescriptorAccess` builds for `op` under convolution
mode `m` (see `convCudnn.cuDNNDescriptorAccess_eq`). -/
def descriptorsOf (b : CudnnStub) (op : ConvObj) (m : cudnnConvolutionMode_t) :
    ConvDescriptors :=
  let g := op.c.tdiv op.cpg
  let inDesc : cudnnTensorDescriptor_t := ⟨op.n, op.c, op.h, op.w⟩
  let knDesc : cudnnFilterDescriptor_t := ⟨op.f, op.cpg, op.r, op.s⟩
  let convDesc : cudnnConvolutionDescriptor_t :=
    ⟨op.ph, op.pw, op.sh, op.sw, op.dh, op.dw, m, if g > 1 then g else 1⟩
  let actDesc : cudnnActivationDescriptor_t :=
    match op.act with
    | .Relu => ⟨CUDNN_ACTIVATION_RELU⟩
    | .Sigmoid => ⟨CUDNN_ACTIVATION_SIGMOID⟩
    | .None => ⟨CUDNN_ACTIVATION_IDENTITY⟩
  let out := b.getConvolution2dForwardOutputDim convDesc inDesc knDesc
  ⟨inDesc, knDesc, ⟨1, op.f, 1, 1⟩, convDesc, actDesc, ⟨out.1, out.2.1, out.2.2.1, out.2.2.2⟩⟩

/-- The output shape the backend computes equals the declared output shape of the operator,
under each convolution mode. -/
def shapeConsistent (b : CudnnStub) (op : ConvObj) : Prop :=
  ∀ m ∈ MODES, (descriptorsOf b op m).outDesc.dims = op.outDims

instance (b : CudnnStub) (op : ConvObj) : Decidable (shapeConsistent b op) := by
  unfold shapeConsistent; infer_instance

/-- Candidate (mode index `i`, algorithm index `j`) as the stub answers it: the measured time
when the workspace query and the warm-up forward call both succeed, `none` when one of them
fails (or an index is outside `0..1` x `0..7`). -/
def measured (b : CudnnStub) (op : ConvObj) (i j : Nat) : Option Int :=
  match MODES[i]?, ALGOS[j]? with
  | some m, some a =>
    let d := descriptorsOf b op m
    let q := b.getConvolutionForwardWorkspaceSize d a
    if q.1 = CUDNN_STATUS_SUCCESS ∧ b.convolutionForward d a q.2 = CUDNN_STATUS_SUCCESS then
      some (b.timeit d a q.2)
    else none
  | _, _ => none

/-- Candidate `(i, j)` is valid: its workspace query and its warm-up forward call succeed. -/
def valid (b : CudnnStub) (op : ConvObj) (i j : Nat) : Bool :=
  (measured b op i j).isSome

/-- The workspace size the stub reports for candidate `(i, j)`, when its query succeeds. -/
def reportedWorkspaceSize (b : CudnnStub) (op : ConvObj) (i j : Nat) : Option Nat :=
  match MODES[i]?, ALGOS[j]? with
  | some m, some a =>
    let q := b.getConvolutionForwardWorkspaceSize (descriptorsOf b op m) a
    if q.1 = CUDNN_STATUS_SUCCESS then some q.2 else none
  | _, _ => none

/-- One step of the selection rule of `tune`: candidate `(i, j)` replaces `ret` when it is
valid and strictly faster. -/
def pick (b : CudnnStub) (op : ConvObj) (i j : Nat) (ret : ConvCuDnnPerfRecord) :
    ConvCuDnnPerfRecord :=
  match measured b op i j with
  | some t => if ret.time > t then ⟨t, j, i, 100000, false⟩ else ret
  | none => ret

/-- The candidates in the order `tune` tries them: `(mode index, algorithm index)`. -/
def candidates : List (Nat × Nat) :=
  [(0, 0), (0, 1), (0, 2), (0, 3), (0, 4), (0, 5), (0, 6), (0, 7),
   (1, 0), (1, 1), (1, 2), (1, 3), (1, 4), (1, 5), (1, 6), (1, 7)]

/-- The selection rule run over a list of candidates. -/
def selectFrom (b : CudnnStub) (op : ConvObj) (cs : List (Nat × Nat))
    (ret : ConvCuDnnPerfRecord) : ConvCuDnnPerfRecord :=
  cs.foldl (fun ret c => pick b op c.1 c.2 ret) ret

/-- The record `tune` starts from: the default record with `time` at the sentinel. -/
def untuned : ConvCuDnnPerfRecord :=
  ⟨DBL_MAX, 0, 1, 100000, false⟩

/-! ## Concrete operators and stubs -/

namespace Examples

/-- A bias-free 1x1x1x2 input with a 1x1x1x2 filter, no padding, unit stride and dilation;
the output is 1x1x1x1. -/
def op1x2 : ConvObj :=
  { numInputs := 2, inData := [1, 0], knData := [1, 2],
    n := 1, c := 1, h := 1, w := 2, f := 1, r := 1, s := 2, cpg := 1,
    ph := 0, pw := 0, sh := 1, sw := 1, dh := 1, dw := 1,
    act := .None, outDims := [1, 1, 1, 1] }

/-- The operator `op1x2` with a third (bias) input. -/
def opBias : ConvObj := { op1x2 with numInputs := 3 }

/-- The output dims cuDNN documents: `1 + (in + 2 * pad - ((k - 1) * dilation + 1)) / stride`. -/
def outputDim (cd : cudnnConvolutionDescriptor_t) (x : cudnnTensorDescriptor_t)
    (k : cudnnFilterDescriptor_t) : Int × Int × Int × Int :=
  (x.n, k.k,
   1 + (x.h + 2 * cd.pad_h - ((k.h - 1) * cd.dilation_h + 1)) / cd.u,
   1 + (x.w + 2 * cd.pad_w - ((k.w - 1) * cd.dilation_w + 1)) / cd.v)

/-- Every candidate is supported, reports a workspace of 64 bytes and takes the same time. -/
def stubAllEqual : CudnnStub where
  getConvolution2dForwardOutputDim := outputDim
  getConvolutionForwardWorkspaceSize := fun _ _ => (CUDNN_STATUS_SUCCESS, 64)
  convolutionForward := fun _ _ _ => CUDNN_STATUS_SUCCESS
  timeit := fun _ _ _ => 5

/-- Only (mode 1, algorithm 2) passes both calls: the other workspace queries are
unsupported, except for algorithm 3, whose warm-up call fails. -/
def stubOne : CudnnStub where
  getConvolution2dForwardOutputDim := outputDim
  getConvolutionForwardWorkspaceSize := fun d a =>
    if a = CUDNN_CONVOLUTION_FWD_ALGO_DIRECT then (CUDNN_STATUS_SUCCESS, 16)
    else if d.convDesc.mode = CUDNN_CROSS_CORRELATION ∧ a = CUDNN_CONVOLUTION_FWD_ALGO_GEMM then
      (CUDNN_STATUS_SUCCESS, 64)
    else (CUDNN_STATUS_NOT_SUPPORTED, 0)
  convolutionForward := fun _ a _ =>
    if a = CUDNN_CONVOLUTION_FWD_ALGO_DIRECT then CUDNN_STATUS_EXECUTION_FAILED
    else CUDNN_STATUS_SUCCESS
  timeit := fun _ _ _ => 7

/-- Every candidate is supported and takes the same time; the workspace reported is 200000
bytes, more than the default `workspaceSize` of a record. -/
def stubBigWorkspace : CudnnStub where
  getConvolution2dForwardOutputDim := outputDim
  getConvolutionForwardWorkspaceSize := fun _ _ => (CUDNN_STATUS_SUCCESS, 200000)
  convolutionForward := fun _ _ _ => CUDNN_STATUS_SUCCESS
  timeit := fun _ _ _ => 5

/-- Every candidate is supported and its measured time is the sentinel itself. -/
def stubSentinel : CudnnStub where
  getConvolution2dForwardOutputDim := outputDim
  getConvolutionForwardWorkspaceSize := fun _ _ => (CUDNN_STATUS_SUCCESS, 64)
  convolutionForward := fun _ _ _ => CUDNN_STATUS_SUCCESS
  timeit := fun _ _ _ => DBL_MAX

/-- Every workspace query reports the candidate unsupported. -/
def stubNone : CudnnStub where
  getConvolution2dForwardOutputDim := outputDim
  getConvolutionForwardWorkspaceSize := fun _ _ => (CUDNN_STATUS_NOT_SUPPORTED, 0)
  convolutionForward := fun _ _ _ => CUDNN_STATUS_SUCCESS
  timeit := fun _ _ _ => 5

/-- A device with no live descriptor, no call issued and a one-element output buffer. -/
def st0 : CudaState :=
  ⟨0, [], [0]⟩

/-- The operator of `TEST(Conv, cuDNN)` (test_conv.cc:76-78) with both tensors filled by the
incremental generator: input `[1,3,4,4]`, filter `[2,3,3,3]`, `ph = pw = 1`, `sh = 2`,
`sw = 1`, `dh = 1`, `dw = 2`, declared output `[1,2,2,2]`. -/
def opTest : ConvObj :=
  { numInputs := 2,
    inData := (List.range 48).map Int.ofNat, knData := (List.range 54).map Int.ofNat,
    n := 1, c := 3, h := 4, w := 4, f := 2, r := 3, s := 3, cpg := 3,
    ph := 1, pw := 1, sh := 2, sw := 1, dh := 1, dw := 2,
    act := .None, outDims := [1, 2, 2, 2] }

/-- A device with no live descriptor, no call issued and a zeroed eight-element output
buffer. -/
def st8 : CudaState :=
  ⟨0, [], [0, 0, 0, 0, 0, 0, 0, 0]⟩

/-- A CNNL whose execution calls fail after writing the first element of the output. -/
def cnnlFailing : CnnlStub where
  getTransposeWorkspaceSize := fun _ _ => 32
  transpose_v2 := fun _ _ a _ y _ => (.CNNL_STATUS_EXECUTION_FAILED, a.take 1 ++ y.drop 1)
  trigonForward := fun _ _ a _ y => (.CNNL_STATUS_EXECUTION_FAILED, a.take 1 ++ y.drop 1)

/-- A 2x3 tensor to be transposed into a 3x2 tensor. -/
def opTranspose : TransposeObj :=
  { aData := [1, 2, 3, 4, 5, 6], dimin := [2, 3], dimout := [3, 2], permute := [1, 0] }

/-- A unary operator on a four-element tensor. -/
def opUnary : UnaryObj :=
  { aData := [1, 2, 3, 4], aDim := [1, 1, 2, 2], cDim := [1, 1, 2, 2] }

/-- A BANG device with no live descriptor, no call issued and a zeroed output buffer. -/
def bang0 : BangState :=
  ⟨0, [], [0, 0, 0, 0, 0, 0]⟩

end Examples

/-! ## Cross-correlation of an operator, and the candidates seen in a trace -/

/-- Number of groups of the operator: `c / cpg`, and one group when that is not above one. -/
def ConvObj.groups (op : ConvObj) : Int :=
  if op.c.tdiv op.cpg > 1 then op.c.tdiv op.cpg else 1

/-- Element `(n, f, p, q)` of the cross-correlation of the input with the kernel of `op`: the
sum over the channels `c` of the group of `f` and the kernel positions `(r, s)` of
`input[n, c, p * sh - ph + r * dh, q * sw - pw + s * dw] * kernel[f, c, r, s]`, the input
reading as zero in the padding. -/
def crossCorrelationAt (op : ConvObj) (n f p q : Int) : Int :=
  let grp := f / (op.f / op.groups)
  ((List.range op.cpg.toNat).map fun (c : Nat) =>
    ((List.range op.r.toNat).map fun (r : Nat) =>
      ((List.range op.s.toNat).map fun (s : Nat) =>
        at4 op.inData op.c op.h op.w n (grp * op.cpg + c)
            (p * op.sh - op.ph + r * op.dh) (q * op.sw - op.pw + s * op.dw)
          * at4 op.knData op.cpg op.r op.s f c r s).sum).sum).sum

/-- The cross-correlation of input and kernel of `op` under its padding, stride and dilation,
laid out row-major over the declared output dims `[N, F, P, Q]`. -/
def crossCorrelation (op : ConvObj) : List Int :=
  match op.outDims with
  | [N, F, P, Q] =>
    (List.range (N.toNat * F.toNat * P.toNat * Q.toNat)).map fun (i : Nat) =>
      crossCorrelationAt op (i / (F.toNat * P.toNat * Q.toNat) : Nat)
        (i / (P.toNat * Q.toNat) % F.toNat : Nat) (i / Q.toNat % P.toNat : Nat)
        (i % Q.toNat : Nat)
  | _ => []

/-- The candidate a workspace query is issued for: the mode of its convolution descriptor and
its algorithm.  Other calls name no candidate. -/
def BackendCall.queried :
    BackendCall → Option (cudnnConvolutionMode_t × cudnnConvolutionFwdAlgo_t)
  | .getConvolutionForwardWorkspaceSize d a => some (d.convDesc.mode, a)
  | _ => none

/-- The sixteen candidates as values, mode-major: each mode of `MODES` with each algorithm of
`ALGOS`. -/
def candidateKeys : List (cudnnConvolutionMode_t × cudnnConvolutionFwdAlgo_t) :=
  MODES.flatMap fun m => ALGOS.map fun a => (m, a)

/-- The backend calls the body of the loop of `tune` issues for candidate `(i, j)`. -/
def candidateCalls (b : CudnnStub) (op : ConvObj) (i j : Nat) : List BackendCall :=
  match MODES[i]?, ALGOS[j]? with
  | some m, some a =>
    let d := descriptorsOf b op m
    let q := b.getConvolutionForwardWorkspaceSize d a
    if q.1 = CUDNN_STATUS_SUCCESS then
      if b.convolutionForward d a q.2 = CUDNN_STATUS_SUCCESS then
        [.getConvolutionForwardWorkspaceSize d a, .getWorkspace q.2,
          .convolutionForward d a q.2, .timeit d a q.2]
      else
        [.getConvolutionForwardWorkspaceSize d a, .getWorkspace q.2,
          .convolutionForward d a q.2]
    else [.getConvolutionForwardWorkspaceSize d a]
  | _, _ => []

namespace Examples

/-- The operator of `TEST(Conv, cuDNN)` with both tensors filled by the one generator. -/
def opOnes : ConvObj :=
  { opTest with
    inData := List.replicate 48 1, knData := List.replicate 54 1 }

/-- The operator `opTest` with stride 2 and dilation 1 in both spatial dims. -/
def opUniform : ConvObj := { opTest with sw := 2, dw := 1 }

/-- The operator `op1x2` with a declared output shape the backend does not compute. -/
def opMismatch : ConvObj := { op1x2 with outDims := [1, 1, 1, 2] }

end Examples

open Examples

/-! ## The sentinel -/

theorem DBL_MAX_eq : DBL_MAX = (2 ^ 53 - 1) * 2 ^ 2045 := by
  have h : ((2 ^ 53 - 1 : Nat) : Int) = 2 ^ 53 - 1 := by norm_num
  unfold DBL_MAX
  rw [Nat.shiftLeft_eq, Int.ofNat_eq_coe, Nat.cast_mul, h, Nat.cast_pow]
  rfl

/-! ## Descriptor access -/

namespace convCudnn

theorem cuDNNDescriptorAccess_eq (b : CudnnStub) (op : ConvObj) (r : ConvCuDnnPerfRecord)
    (st : CudaState) (m : cudnnConvolutionMode_t) (hm : MODES[r.mode]? = some m) :
    cuDNNDescriptorAccess b op r st =
      if op.numInputs > 2 then .fatal .todoHalt st
      else if (descriptorsOf b op m).outDesc.dims = op.outDims then
        .ok (descriptorsOf b op m) st.create.create.create.create.create.create
      else
        .fatal (.assertion "cuDNN output shape mismatches with OP output shape")
          st.create.create.create.create.create.create := by
  unfold cuDNNDescriptorAccess
  simp only [hm]
  rfl

theorem forEach_sim {σ τ ρ : Type} (proj : τ → ρ) (I : τ → Prop) (f : Nat → ρ → ρ)
    (body : Nat → τ → σ → Result σ τ) (ks : List Nat)
    (h : ∀ k ∈ ks, ∀ v st, I v →
      ∃ v' st', body k v st = .ok v' st' ∧ proj v' = f k (proj v) ∧ I v') :
    ∀ v st, I v → ∃ v' st', forEach ks body v st = .ok v' st' ∧
      proj v' = ks.foldl (fun r k => f k r) (proj v) ∧ I v' := by
  induction ks with
  | nil => intro v st hv; exact ⟨v, st, rfl, rfl, hv⟩
  | cons k ks ih =>
    intro v st hv
    obtain ⟨v1, st1, h1, hp, hI⟩ := h k (List.mem_cons_self _ _) v st hv
    obtain ⟨v2, st2, h2, hp2, hI2⟩ :=
      ih (fun k' hk' => h k' (List.mem_cons_of_mem _ hk')) v1 st1 hI
    refine ⟨v2, st2, ?_, ?_, hI2⟩
    · simp only [forEach, h1, h2]
    · simp only [List.foldl_cons, hp2, hp]

theorem mode_lookup {i : Nat} (hi : i < N_MODE) : ∃ m, MODES[i]? = some m ∧ m ∈ MODES := by
  have h : i < MODES.length := hi
  exact ⟨MODES[i], List.getElem?_eq_getElem h, List.getElem_mem _⟩

theorem algo_lookup {j : Nat} (hj : j < N_ALGO) : ∃ a, ALGOS[j]? = some a := by
  have h : j < ALGOS.length := hj
  exact ⟨ALGOS[j], List.getElem?_eq_getElem h⟩

theorem tuneBody_eq (b : CudnnStub) (op : ConvObj) (i j : Nat) (v : TuneVars) (st : CudaState)
    (hin : op.numInputs ≤ 2)
    (hshape : ∀ m, MODES[i]? = some m → (descriptorsOf b op m).outDesc.dims = op.outDims)
    (hi : i < N_MODE) (hj : j < N_ALGO)
    (hv : v.tmp_ret.workspaceSize = 100000 ∧ v.tmp_ret.fuseAct = false) :
    ∃ v' st', tuneBody b op i j v st = .ok v' st' ∧ v'.ret = pick b op i j v.ret ∧
      (v'.tmp_ret.workspaceSize = 100000 ∧ v'.tmp_ret.fuseAct = false) := by
  obtain ⟨m, hm, -⟩ := mode_lookup hi
  obtain ⟨a, ha⟩ := algo_lookup hj
  have hnot : ¬ op.numInputs > 2 := by omega
  have hacc := cuDNNDescriptorAccess_eq b op { v.tmp_ret with algo := j, mode := i } st m hm
  simp only [hnot, if_false, hshape m hm, if_true] at hacc
  unfold tuneBody
  simp only [hacc, ha]
  by_cases hq : (b.getConvolutionForwardWorkspaceSize (descriptorsOf b op m) a).1
      = CUDNN_STATUS_SUCCESS
  · by_cases hf : b.convolutionForward (descriptorsOf b op m) a
        (b.getConvolutionForwardWorkspaceSize (descriptorsOf b op m) a).2 = CUDNN_STATUS_SUCCESS
    · simp [cudnnConvolutionForward, pick, measured, hm, ha, hq, hf, hv.1, hv.2]
    · simp [cudnnConvolutionForward, pick, measured, hm, ha, hq, hf, hv.1, hv.2]
  · simp [pick, measured, hm, ha, hq, hv.1, hv.2]


theorem mem_of_lookup {i : Nat} {m : cudnnConvolutionMode_t} (h : MODES[i]? = some m) :
    m ∈ MODES :=
  List.getElem?_mem h

/-- The inner loop of `tune` for mode index `i`, when the guards pass for that mode. -/
theorem tune_inner_eq (b : CudnnStub) (op : ConvObj) (i : Nat) (v : TuneVars) (st : CudaState)
    (hin : op.numInputs ≤ 2)
    (hshape : ∀ m, MODES[i]? = some m → (descriptorsOf b op m).outDesc.dims = op.outDims)
    (hi : i < N_MODE)
    (hv : v.tmp_ret.workspaceSize = 100000 ∧ v.tmp_ret.fuseAct = false) :
    ∃ v' st', forEach (List.range N_ALGO) (fun j => tuneBody b op i j) v st = .ok v' st' ∧
      v'.ret = (List.range N_ALGO).foldl (fun r j => pick b op i j r) v.ret ∧
      (v'.tmp_ret.workspaceSize = 100000 ∧ v'.tmp_ret.fuseAct = false) :=
  forEach_sim TuneVars.ret
    (fun v => v.tmp_ret.workspaceSize = 100000 ∧ v.tmp_ret.fuseAct = false)
    (fun j r => pick b op i j r) (fun j => tuneBody b op i j) (List.range N_ALGO)
    (fun j hj v st hv => tuneBody_eq b op i j v st hin hshape hi (List.mem_range.mp hj) hv)
    v st hv

/-- Under the two guards of `cuDNNDescriptorAccess`, the search of `tune` ends normally, and
its `ret` is the selection rule run over the sixteen candidates in enumeration order. -/
theorem tuneLoops_eq_selectFrom (b : CudnnStub) (op : ConvObj) (time0 : Int) (st : CudaState)
    (hin : op.numInputs ≤ 2) (hshape : shapeConsistent b op) :
    ∃ st', tuneLoops b op time0 st = .ok (selectFrom b op candidates untuned) st' := by
  obtain ⟨v', st', h, hret, -⟩ := forEach_sim TuneVars.ret
    (fun v => v.tmp_ret.workspaceSize = 100000 ∧ v.tmp_ret.fuseAct = false)
    (fun i r => (List.range N_ALGO).foldl (fun r j => pick b op i j r) r)
    (fun i => forEach (List.range N_ALGO) (fun j => tuneBody b op i j)) (List.range N_MODE)
    (fun i hi v st hv => tune_inner_eq b op i v st hin
      (fun m hm => hshape m (mem_of_lookup hm)) (List.mem_range.mp hi) hv)
    ⟨{ ConvCuDnnPerfRecord.init time0 with time := DBL_MAX }, ConvCuDnnPerfRecord.init time0⟩
    st ⟨rfl, rfl⟩
  refine ⟨st', ?_⟩
  unfold tuneLoops
  simp only [h, hret]
  rfl

/-- The body of the loop fails when a guard of `cuDNNDescriptorAccess` fails for its mode. -/
theorem tuneBody_fatal (b : CudnnStub) (op : ConvObj) (i j : Nat) (v : TuneVars)
    (st : CudaState) (m : cudnnConvolutionMode_t) (hm : MODES[i]? = some m)
    (h : ¬ (op.numInputs ≤ 2 ∧ (descriptorsOf b op m).outDesc.dims = op.outDims)) :
    ∃ e st', tuneBody b op i j v st = .fatal e st' := by
  have hacc := cuDNNDescriptorAccess_eq b op { v.tmp_ret with algo := j, mode := i } st m hm
  unfold tuneBody
  by_cases hin : op.numInputs > 2
  · simp only [hin, if_true] at hacc
    exact ⟨.todoHalt, st, by simp only [hacc]⟩
  · have hd : ¬ (descriptorsOf b op m).outDesc.dims = op.outDims :=
      fun hd => h ⟨by omega, hd⟩
    simp only [hin, if_false, hd] at hacc
    exact ⟨.assertion "cuDNN output shape mismatches with OP output shape",
      st.create.create.create.create.create.create, by simp only [hacc]⟩

theorem forEach_cons_fatal {σ τ : Type} (body : Nat → τ → σ → Result σ τ) (k : Nat)
    (ks : List Nat) (v : τ) (st : σ) (e : Failure) (st' : σ)
    (h : body k v st = .fatal e st') : forEach (k :: ks) body v st = .fatal e st' := by
  simp only [forEach, h]

theorem forEach_cons_ok {σ τ : Type} (body : Nat → τ → σ → Result σ τ) (k : Nat)
    (ks : List Nat) (v v' : τ) (st st' : σ)
    (h : body k v st = .ok v' st') : forEach (k :: ks) body v st = forEach ks body v' st' := by
  simp only [forEach, h]

theorem tuneLoops_def (b : CudnnStub) (op : ConvObj) (time0 : Int) (st : CudaState) :
    tuneLoops b op time0 st =
      match forEach (List.range N_MODE)
          (fun i => forEach (List.range N_ALGO) (fun j => tuneBody b op i j))
          ⟨untuned, ConvCuDnnPerfRecord.init time0⟩ st with
      | .ok v st => .ok v.ret st
      | .fatal e st => .fatal e st :=
  rfl

/-- When the search of `tune` ends normally, both guards of `cuDNNDescriptorAccess` hold. -/
theorem tuneLoops_ok_guards (b : CudnnStub) (op : ConvObj) (time0 : Int) (st st' : CudaState)
    (r : ConvCuDnnPerfRecord) (h : tuneLoops b op time0 st = .ok r st') :
    op.numInputs ≤ 2 ∧ shapeConsistent b op := by
  have hmodes : List.range N_MODE = [0, 1] := rfl
  have halgos : List.range N_ALGO = 0 :: [1, 2, 3, 4, 5, 6, 7] := rfl
  rw [tuneLoops_def, hmodes] at h
  have h0 : op.numInputs ≤ 2 ∧
      (descriptorsOf b op CUDNN_CONVOLUTION).outDesc.dims = op.outDims := by
    by_contra hneg
    obtain ⟨e, st1, hb⟩ := tuneBody_fatal b op 0 0 ⟨untuned, ConvCuDnnPerfRecord.init time0⟩ st
      CUDNN_CONVOLUTION rfl hneg
    have hf : forEach (List.range N_ALGO) (fun j => tuneBody b op 0 j)
        ⟨untuned, ConvCuDnnPerfRecord.init time0⟩ st = .fatal e st1 := by
      rw [halgos]
      exact forEach_cons_fatal _ 0 _ _ _ e st1 hb
    rw [forEach_cons_fatal _ 0 [1] _ _ e st1 hf] at h
    cases h
  have h1 : (descriptorsOf b op CUDNN_CROSS_CORRELATION).outDesc.dims = op.outDims := by
    by_contra hneg
    obtain ⟨v1, st1, hinner, -, -⟩ := tune_inner_eq b op 0
      ⟨untuned, ConvCuDnnPerfRecord.init time0⟩ st
      h0.1 (fun m hm => by cases hm; exact h0.2) (by decide) ⟨rfl, rfl⟩
    obtain ⟨e, st2, hb⟩ := tuneBody_fatal b op 1 0 v1 st1
      CUDNN_CROSS_CORRELATION rfl (fun hh => hneg hh.2)
    have hf : forEach (List.range N_ALGO) (fun j => tuneBody b op 1 j) v1 st1
        = .fatal e st2 := by
      rw [halgos]
      exact forEach_cons_fatal _ 0 _ _ _ e st2 hb
    rw [forEach_cons_ok _ 0 [1] _ v1 _ st1 hinner,
      forEach_cons_fatal _ 1 [] _ _ e st2 hf] at h
    cases h
  refine ⟨h0.1, ?_⟩
  intro m hm
  cases m
  · exact h0.2
  · exact h1

end convCudnn

/-! ## The selection rule -/

theorem pick_time_le (b : CudnnStub) (op : ConvObj) (i j : Nat) (ret : ConvCuDnnPerfRecord) :
    (pick b op i j ret).time ≤ ret.time := by
  unfold pick
  split
  · split
    · simp only; omega
    · exact le_refl _
  · exact le_refl _

theorem pick_time_le_measured (b : CudnnStub) (op : ConvObj) (i j : Nat)
    (ret : ConvCuDnnPerfRecord) (t : Int) (h : measured b op i j = some t) :
    (pick b op i j ret).time ≤ t := by
  unfold pick
  simp only [h]
  split
  · exact le_refl _
  · omega

theorem pick_cases (b : CudnnStub) (op : ConvObj) (i j : Nat) (ret : ConvCuDnnPerfRecord) :
    pick b op i j ret = ret ∨
      (measured b op i j = some (pick b op i j ret).time ∧ (pick b op i j ret).time < ret.time ∧
        pick b op i j ret = ⟨(pick b op i j ret).time, j, i, 100000, false⟩) := by
  unfold pick
  split
  · rename_i t ht
    split
    · right; exact ⟨ht, by simp only; omega, rfl⟩
    · left; rfl
  · left; rfl

theorem selectFrom_time_le (b : CudnnStub) (op : ConvObj) (cs : List (Nat × Nat)) :
    ∀ ret, (selectFrom b op cs ret).time ≤ ret.time := by
  induction cs with
  | nil => intro ret; exact le_refl _
  | cons c cs ih =>
    intro ret
    exact le_trans (ih _) (pick_time_le b op c.1 c.2 ret)

theorem selectFrom_time_le_measured (b : CudnnStub) (op : ConvObj) (cs : List (Nat × Nat)) :
    ∀ ret, ∀ c ∈ cs, ∀ t, measured b op c.1 c.2 = some t → (selectFrom b op cs ret).time ≤ t := by
  induction cs with
  | nil => intro ret c hc; cases hc
  | cons x cs ih =>
    intro ret c hc t ht
    rcases List.mem_cons.mp hc with rfl | hc
    · exact le_trans (selectFrom_time_le b op cs _) (pick_time_le_measured b op _ _ ret t ht)
    · exact ih _ c hc t ht

theorem selectFrom_eq_of_time_eq (b : CudnnStub) (op : ConvObj) (cs : List (Nat × Nat)) :
    ∀ ret, (selectFrom b op cs ret).time = ret.time → selectFrom b op cs ret = ret := by
  induction cs with
  | nil => intro ret _; rfl
  | cons x cs ih =>
    intro ret h
    have h1 : (selectFrom b op cs (pick b op x.1 x.2 ret)).time ≤ (pick b op x.1 x.2 ret).time :=
      selectFrom_time_le b op cs _
    have h2 := pick_time_le b op x.1 x.2 ret
    have h3 : selectFrom b op (x :: cs) ret = selectFrom b op cs (pick b op x.1 x.2 ret) := rfl
    rw [h3] at h ⊢
    have hp : pick b op x.1 x.2 ret = ret := by
      rcases pick_cases b op x.1 x.2 ret with hp | ⟨-, hlt, -⟩
      · exact hp
      · omega
    rw [hp] at h ⊢
    exact ih ret h

/-- When the selection improves on the starting record, its result is a valid candidate of the
list, recorded with its own measured time, and every candidate tried before it is invalid or
strictly slower. -/
theorem selectFrom_first (b : CudnnStub) (op : ConvObj) (cs : List (Nat × Nat)) :
    ∀ ret, (selectFrom b op cs ret).time < ret.time →
      ∃ l1 w l2, cs = l1 ++ w :: l2 ∧
        selectFrom b op cs ret = ⟨(selectFrom b op cs ret).time, w.2, w.1, 100000, false⟩ ∧
        measured b op w.1 w.2 = some (selectFrom b op cs ret).time ∧
        ∀ c ∈ l1, ∀ t, measured b op c.1 c.2 = some t → (selectFrom b op cs ret).time < t := by
  induction cs with
  | nil => intro ret h; exact absurd h (lt_irrefl _)
  | cons x cs ih =>
    intro ret h
    have h3 : selectFrom b op (x :: cs) ret = selectFrom b op cs (pick b op x.1 x.2 ret) := rfl
    rw [h3] at h ⊢
    by_cases hlt : (selectFrom b op cs (pick b op x.1 x.2 ret)).time < (pick b op x.1 x.2 ret).time
    · obtain ⟨l1, w, l2, hcs, hrec, hm, hbefore⟩ := ih _ hlt
      refine ⟨x :: l1, w, l2, by rw [hcs]; rfl, hrec, hm, ?_⟩
      intro c hc t ht
      rcases List.mem_cons.mp hc with rfl | hc
      · exact lt_of_lt_of_le hlt (pick_time_le_measured b op _ _ ret t ht)
      · exact hbefore c hc t ht
    · have heq : (selectFrom b op cs (pick b op x.1 x.2 ret)).time = (pick b op x.1 x.2 ret).time :=
        le_antisymm (selectFrom_time_le b op cs _) (not_lt.mp hlt)
      have hsel := selectFrom_eq_of_time_eq b op cs _ heq
      rw [hsel] at h ⊢
      rcases pick_cases b op x.1 x.2 ret with hp | ⟨hm, -, hrec⟩
      · rw [hp] at h; exact absurd h (lt_irrefl _)
      · exact ⟨[], x, cs, rfl, hrec, hm, fun c hc => by cases hc⟩

/-! ## Selection by `tune` -/

theorem measured_some_mem (b : CudnnStub) (op : ConvObj) (i j : Nat) (t : Int)
    (h : measured b op i j = some t) : (i, j) ∈ candidates := by
  have hi : i < 2 := by
    by_contra hi
    have hlen : MODES.length ≤ i := by have : MODES.length = 2 := rfl; omega
    simp [measured, List.getElem?_eq_none hlen] at h
  have hj : j < 8 := by
    by_contra hj
    have hlen : ALGOS.length ≤ j := by have : ALGOS.length = 8 := rfl; omega
    simp only [measured, List.getElem?_eq_none hlen] at h
    split at h <;> simp_all
  interval_cases i <;> interval_cases j <;> decide

theorem measured_lt_sentinel (b : CudnnStub) (op : ConvObj) (i j : Nat) (t : Int)
    (hsent : ∀ d a w, b.timeit d a w < DBL_MAX) (h : measured b op i j = some t) :
    t < DBL_MAX := by
  unfold measured at h
  split at h
  · dsimp only at h
    split at h
    · cases h; exact hsent _ _ _
    · cases h
  · cases h

theorem candidates_sorted :
    candidates.Pairwise (fun a c => a.1 < c.1 ∨ (a.1 = c.1 ∧ a.2 < c.2)) := by
  decide

namespace convCudnn

/-! ### The record `tune` returns -/

theorem tune_of_tuneLoops_ok (b : CudnnStub) (op : ConvObj) (time0 : Int) (st st' : CudaState)
    (ret : ConvCuDnnPerfRecord) (h : tuneLoops b op time0 st = .ok ret st') :
    tune b op time0 st = .ok ⟨ret.time⟩ st' := by
  simp only [tune, h, ConvCuDnnPerfRecord.toPerfRecord]

theorem tune_of_tuneLoops_fatal (b : CudnnStub) (op : ConvObj) (time0 : Int)
    (st st' : CudaState) (e : Failure) (h : tuneLoops b op time0 st = .fatal e st') :
    tune b op time0 st = .fatal e st' := by
  simp only [tune, h]

/-- A record returned by `tune` is the base part of the `ret` its search ends with. -/
theorem tuneLoops_of_tune_ok (b : CudnnStub) (op : ConvObj) (time0 : Int) (st st' : CudaState)
    (r : PerfRecord) (h : tune b op time0 st = .ok r st') :
    ∃ ret, tuneLoops b op time0 st = .ok ret st' ∧ r = ⟨ret.time⟩ := by
  unfold tune at h
  split at h
  · rename_i ret st1 hl
    cases h
    exact ⟨ret, hl, rfl⟩
  · cases h

/-- The `dynamic_cast` of `compute` fails on every object whose dynamic type is `PerfRecord`:
`compute` raises `std::bad_cast` before any other step. -/
theorem compute_base (b : CudnnStub) (op : ConvObj) (r : PerfRecord) (st : CudaState) :
    compute b op (.base r) st = .fatal .badCast st :=
  rfl

/-- Whatever record `tune` returns, `compute` called with that object raises `std::bad_cast`
and leaves the device state as it was. -/
theorem compute_with_returned_record_fails (b : CudnnStub) (op : ConvObj) (time0 : Int)
    (st st1 st2 : CudaState) (r : PerfRecord) (_h : tune b op time0 st = .ok r st1) :
    compute b op (.base r) st2 = .fatal .badCast st2 :=
  rfl

/-- C1 (amended).  For every Conv operator with at most two inputs whose declared output shape
is the one the backend computes, and every stub whose measured times are below the sentinel:
when at least one candidate is valid, the search of `tune` ends with a `ret` whose
`(algo, mode)` is a valid candidate and whose `time` is that candidate's measured time, `tune`
returns a record with that time, and the time is at most the measured time of every valid
candidate.  Nothing is assumed of the other candidates. -/
theorem tune_returns_fastest_valid (b : CudnnStub) (op : ConvObj) (time0 : Int)
    (st : CudaState) (hin : op.numInputs ≤ 2) (hshape : shapeConsistent b op)
    (hsent : ∀ d a w, b.timeit d a w < DBL_MAX)
    (hvalid : ∃ i j, valid b op i j = true) :
    ∃ ret st', tuneLoops b op time0 st = .ok ret st' ∧
      tune b op time0 st = .ok ⟨ret.time⟩ st' ∧
      valid b op ret.mode ret.algo = true ∧
      measured b op ret.mode ret.algo = some ret.time ∧
      ∀ i j t, measured b op i j = some t → ret.time ≤ t := by
  obtain ⟨st', htune⟩ := tuneLoops_eq_selectFrom b op time0 st hin hshape
  obtain ⟨i0, j0, hv0⟩ := hvalid
  obtain ⟨t0, ht0⟩ := Option.isSome_iff_exists.mp hv0
  have hmin : ∀ i j t, measured b op i j = some t →
      (selectFrom b op candidates untuned).time ≤ t := fun i j t ht =>
    selectFrom_time_le_measured b op candidates untuned (i, j)
      (measured_some_mem b op i j t ht) t ht
  have hlt : (selectFrom b op candidates untuned).time < untuned.time :=
    lt_of_le_of_lt (hmin i0 j0 t0 ht0) (measured_lt_sentinel b op i0 j0 t0 hsent ht0)
  obtain ⟨l1, w, l2, -, hrec, hm, -⟩ := selectFrom_first b op candidates untuned hlt
  have hmode : (selectFrom b op candidates untuned).mode = w.1 := by rw [hrec]
  have halgo : (selectFrom b op candidates untuned).algo = w.2 := by rw [hrec]
  refine ⟨_, st', htune, tune_of_tuneLoops_ok b op time0 st st' _ htune, ?_, ?_, hmin⟩
  · rw [hmode, halgo, valid, hm]; rfl
  · rw [hmode, halgo]; exact hm

theorem tune_returns_fastest_valid_witness :
    ∃ ret st', tuneLoops stubOne op1x2 0 st0 = .ok ret st' ∧
      tune stubOne op1x2 0 st0 = .ok ⟨ret.time⟩ st' ∧
      valid stubOne op1x2 ret.mode ret.algo = true ∧
      measured stubOne op1x2 ret.mode ret.algo = some ret.time ∧
      ∀ i j t, measured stubOne op1x2 i j = some t → ret.time ≤ t :=
  tune_returns_fastest_valid stubOne op1x2 0 st0 (by decide) (by decide)
    (fun _ _ _ => (by decide : (7 : Int) < DBL_MAX)) ⟨1, 2, by decide⟩

/-- C1 (counterexample).  On an operator with a bias input every candidate of the stub is valid
with a time below the sentinel, yet `tune` stops at `IT_TODO_HALT` and returns no record. -/
theorem tune_bias_no_record :
    (∀ c ∈ candidates, measured stubAllEqual opBias c.1 c.2 = some 5) ∧ (5 : Int) < DBL_MAX ∧
      tune stubAllEqual opBias 0 st0 = .fatal .todoHalt st0 := by
  refine ⟨?_, by decide, by decide⟩
  decide

end convCudnn

/-! ## Records returned by `tune` and `compute` -/

theorem selectFrom_of_none (b : CudnnStub) (op : ConvObj) (cs : List (Nat × Nat))
    (ret : ConvCuDnnPerfRecord) (h : ∀ c ∈ cs, measured b op c.1 c.2 = none) :
    selectFrom b op cs ret = ret := by
  induction cs generalizing ret with
  | nil => rfl
  | cons x cs ih =>
    have hx : pick b op x.1 x.2 ret = ret := by
      unfold pick; rw [h x (List.mem_cons_self _ _)]
    have h3 : selectFrom b op (x :: cs) ret = selectFrom b op cs (pick b op x.1 x.2 ret) := rfl
    rw [h3, hx]
    exact ih ret (fun c hc => h c (List.mem_cons_of_mem _ hc))

theorem selectFrom_workspaceSize (b : CudnnStub) (op : ConvObj) (cs : List (Nat × Nat)) :
    ∀ ret : ConvCuDnnPerfRecord, ret.workspaceSize = 100000 →
      (selectFrom b op cs ret).workspaceSize = 100000 := by
  induction cs with
  | nil => intro ret h; exact h
  | cons x cs ih =>
    intro ret h
    have h3 : selectFrom b op (x :: cs) ret = selectFrom b op cs (pick b op x.1 x.2 ret) := rfl
    rw [h3]
    apply ih
    rcases pick_cases b op x.1 x.2 ret with hp | ⟨-, -, hrec⟩
    · rw [hp]; exact h
    · rw [hrec]

namespace convCudnn

/-- Running `compute` with a `ConvCuDnnPerfRecord` whose candidate is valid returns
normally. -/
theorem compute_ok_of_measured (b : CudnnStub) (op : ConvObj) (r : ConvCuDnnPerfRecord)
    (t : Int) (st : CudaState) (hin : op.numInputs ≤ 2) (hshape : shapeConsistent b op)
    (h : measured b op r.mode r.algo = some t) :
    ∃ st', compute b op (.convCuDnn r) st = .ok () st' := by
  unfold measured at h
  split at h
  · rename_i m a hm ha
    dsimp only at h
    split at h
    · rename_i hs
      have hnot : ¬ op.numInputs > 2 := by omega
      have hacc := cuDNNDescriptorAccess_eq b op r st m hm
      simp only [hnot, if_false, hshape m (mem_of_lookup hm), if_true] at hacc
      unfold compute cuDNNUnfused
      simp [hacc, ha, hs.1, hs.2, cudnnConvolutionForward]
    · cases h
  · cases h

/-- The search of `tune` never stores the workspace size the backend reports: under the guards
of `cuDNNDescriptorAccess` its `ret` ends with `workspaceSize = 100000`, the default. -/
theorem tuneLoops_workspaceSize_default (b : CudnnStub) (op : ConvObj) (time0 : Int)
    (st : CudaState) (hin : op.numInputs ≤ 2) (hshape : shapeConsistent b op) :
    ∃ ret st', tuneLoops b op time0 st = .ok ret st' ∧ ret.workspaceSize = 100000 := by
  obtain ⟨st', htune⟩ := tuneLoops_eq_selectFrom b op time0 st hin hshape
  exact ⟨_, st', htune, selectFrom_workspaceSize b op candidates untuned rfl⟩

/-- C3 (code at the failing input).  Every candidate reports a workspace of 200000 bytes.  The
`ret` the search of `tune` ends with names a candidate for which 200000 was reported and has
`workspaceSize = 100000`; the record `tune` returns carries the time alone. -/
theorem tune_workspaceSize_not_reported :
    ∃ ret st', tuneLoops stubBigWorkspace op1x2 0 st0 = .ok ret st' ∧
      reportedWorkspaceSize stubBigWorkspace op1x2 ret.mode ret.algo = some 200000 ∧
      ret.workspaceSize = 100000 ∧
      tune stubBigWorkspace op1x2 0 st0 = .ok { time := 5 } st' :=
  ⟨⟨5, 0, 0, 100000, false⟩, (tuneLoops stubBigWorkspace op1x2 0 st0).state, by rfl, by decide,
    by decide, by rfl⟩

/-- With both guards passing and no valid candidate, the search of `tune` ends with the default
record at the sentinel time, and `tune` returns the sentinel time. -/
theorem tuneLoops_all_invalid_default (b : CudnnStub) (op : ConvObj) (time0 : Int)
    (st : CudaState) (hin : op.numInputs ≤ 2) (hshape : shapeConsistent b op)
    (hinvalid : ∀ c ∈ candidates, valid b op c.1 c.2 = false) :
    ∃ st', tuneLoops b op time0 st = .ok untuned st' ∧
      tune b op time0 st = .ok { time := DBL_MAX } st' := by
  obtain ⟨st', htune⟩ := tuneLoops_eq_selectFrom b op time0 st hin hshape
  have hsel : selectFrom b op candidates untuned = untuned := by
    apply selectFrom_of_none
    intro c hc
    have := hinvalid c hc
    simpa [valid] using this
  rw [hsel] at htune
  exact ⟨st', htune, tune_of_tuneLoops_ok b op time0 st st' untuned htune⟩

/-- C4 (code at the failing input).  Every candidate is invalid.  `tune` returns normally; the
object it returns is a `PerfRecord` holding the sentinel time, while the default values
`algo = 0`, `mode = 1`, `workspaceSize = 100000`, `fuseAct = false` stay in the local `ret`;
the `dynamic_cast` of `compute` to `ConvCuDnnPerfRecord` fails on the returned object. -/
theorem tune_all_invalid_returns_time_only :
    (∀ c ∈ candidates, valid stubNone op1x2 c.1 c.2 = false) ∧
      (∃ st', tuneLoops stubNone op1x2 0 st0 =
          .ok { time := DBL_MAX, algo := 0, mode := 1, workspaceSize := 100000,
                fuseAct := false } st' ∧
        tune stubNone op1x2 0 st0 = .ok { time := DBL_MAX } st') ∧
      compute stubNone op1x2 (.base { time := DBL_MAX }) st0 = .fatal .badCast st0 :=
  ⟨by decide, ⟨(tuneLoops stubNone op1x2 0 st0).state, by decide, by decide⟩, rfl⟩

/-- Had `compute` been given the `ret` the search of `tune` ends with, as a
`ConvCuDnnPerfRecord`: when its time is below the sentinel, the candidate it names is valid and
`compute` returns normally from any device state. -/
theorem compute_with_selected_record_ok (b : CudnnStub) (op : ConvObj) (time0 : Int)
    (st st1 st2 : CudaState) (r : ConvCuDnnPerfRecord)
    (htune : tuneLoops b op time0 st = .ok r st1) (htime : r.time < DBL_MAX) :
    valid b op r.mode r.algo = true ∧
      (∃ st3, cuDNNUnfused b op r st2 = .ok true st3) ∧
      ∃ st3, compute b op (.convCuDnn r) st2 = .ok () st3 := by
  obtain ⟨hin, hshape⟩ := tuneLoops_ok_guards b op time0 st st1 r htune
  obtain ⟨st', hsel⟩ := tuneLoops_eq_selectFrom b op time0 st hin hshape
  rw [htune] at hsel
  have hr : r = selectFrom b op candidates untuned := by cases hsel; rfl
  have hlt : (selectFrom b op candidates untuned).time < untuned.time := hr ▸ htime
  obtain ⟨l1, w, l2, -, hrec, hm, -⟩ := selectFrom_first b op candidates untuned hlt
  have hmeas : measured b op r.mode r.algo = some r.time := by
    rw [hr]
    have hmode : (selectFrom b op candidates untuned).mode = w.1 := by rw [hrec]
    have halgo : (selectFrom b op candidates untuned).algo = w.2 := by rw [hrec]
    rw [hmode, halgo]; exact hm
  obtain ⟨st3, hc⟩ := compute_ok_of_measured b op r r.time st2 hin hshape hmeas
  refine ⟨by rw [valid, hmeas]; rfl, ?_, st3, hc⟩
  unfold compute at hc
  dsimp only at hc
  split at hc
  · cases hc
  · rename_i success st4 hu
    split at hc
    · rename_i hs
      exact ⟨st4, by rw [hu, hs]⟩
    · cases hc

/-- C7 (code at the failing input).  `tune` returns the record of the one valid candidate, with
a time below the sentinel; `compute` with that record raises `std::bad_cast` at its
`dynamic_cast`, without a workspace query or a forward call.  The same candidate given as a
`ConvCuDnnPerfRecord` lets `compute` return normally. -/
theorem compute_with_tuned_record_bad_cast :
    (∃ st1, tune stubOne op1x2 0 st0 = .ok { time := 7 } st1) ∧ (7 : Int) < DBL_MAX ∧
      compute stubOne op1x2 (.base { time := 7 }) st0 = .fatal .badCast st0 ∧
      (compute stubOne op1x2 (.base { time := 7 }) st0).state.calls = [] ∧
      (compute stubOne op1x2 (.convCuDnn ⟨7, 2, 1, 100000, false⟩) st0).isOk = true :=
  ⟨⟨(tune stubOne op1x2 0 st0).state, by decide⟩, by decide, rfl, rfl, by decide⟩

end convCudnn

/-! ## Output, descriptor lifetime and failure signalling -/

namespace convCudnn

/-- C6 (code at the failing input).  On the operator of `TEST(Conv, cuDNN)` with a stub in which
every candidate is supported and equally fast: `compute` with the default record writes the
output the test expects; `compute` with the record `tune` returns raises `std::bad_cast` and
leaves the output buffer as it was.  The search of `tune` ends with mode index 0
(`CUDNN_CONVOLUTION`), and `compute` with that `ret` as a `ConvCuDnnPerfRecord` returns
normally and writes another output than the default record. -/
theorem tuned_output_differs_from_default :
    (∃ st', tune stubAllEqual opTest 0 st8 = .ok { time := 5 } st') ∧
      (computeDefault stubAllEqual opTest 0 st8).isOk = true ∧
      (computeDefault stubAllEqual opTest 0 st8).state.outData
        = [4794, 4386, 8199, 7506, 11274, 10542, 20835, 19656] ∧
      compute stubAllEqual opTest (.base { time := 5 }) st8 = .fatal .badCast st8 ∧
      (compute stubAllEqual opTest (.base { time := 5 }) st8).state.outData
        = [0, 0, 0, 0, 0, 0, 0, 0] ∧
      (∃ st', tuneLoops stubAllEqual opTest 0 st8 = .ok ⟨5, 0, 0, 100000, false⟩ st') ∧
      (compute stubAllEqual opTest (.convCuDnn ⟨5, 0, 0, 100000, false⟩) st8).isOk = true ∧
      (compute stubAllEqual opTest (.convCuDnn ⟨5, 0, 0, 100000, false⟩) st8).state.outData
        = [3750, 3846, 7425, 7650, 10230, 10002, 20061, 19800] :=
  ⟨⟨(tune stubAllEqual opTest 0 st8).state, by rfl⟩, by decide, by decide, rfl, rfl,
    ⟨(tuneLoops stubAllEqual opTest 0 st8).state, by rfl⟩, by decide, by decide⟩

set_option maxRecDepth 8192 in
/-- C8 (code at the failing input).  With a stub whose workspace queries all report
unsupported, `tune` returns normally and leaves 96 descriptors alive that were not alive when
it was called: the six descriptors of each of the sixteen skipped candidates.  With a stub
in which one candidate is valid, the fifteen skipped candidates leave 90. -/
theorem tune_leaks_descriptors_of_skipped :
    st0.liveDescriptors = 0 ∧
      (tune stubNone op1x2 0 st0).isOk = true ∧
      (tune stubNone op1x2 0 st0).state.liveDescriptors = 96 ∧
      (tune stubOne op1x2 0 st0).isOk = true ∧
      (tune stubOne op1x2 0 st0).state.liveDescriptors = 90 ∧
      (tune stubAllEqual op1x2 0 st0).state.liveDescriptors = 0 :=
  ⟨by decide, by decide, by decide, by decide, by decide, by decide⟩

/-- A candidate skipped by the first `continue` of `tune` leaves its six descriptors alive. -/
theorem tuneBody_skip_leaks (b : CudnnStub) (op : ConvObj) (i j : Nat) (v : TuneVars)
    (st : CudaState) (m : cudnnConvolutionMode_t) (a : cudnnConvolutionFwdAlgo_t)
    (hm : MODES[i]? = some m) (ha : ALGOS[j]? = some a)
    (hin : op.numInputs ≤ 2) (hshape : (descriptorsOf b op m).outDesc.dims = op.outDims)
    (hq : (b.getConvolutionForwardWorkspaceSize (descriptorsOf b op m) a).1
      ≠ CUDNN_STATUS_SUCCESS) :
    ∃ v' st', tuneBody b op i j v st = .ok v' st' ∧ v'.ret = v.ret ∧
      st'.liveDescriptors = st.liveDescriptors + 6 := by
  have hnot : ¬ op.numInputs > 2 := by omega
  have hacc := cuDNNDescriptorAccess_eq b op { v.tmp_ret with algo := j, mode := i } st m hm
  simp only [hnot, if_false, hshape, if_true] at hacc
  unfold tuneBody
  simp only [hacc, ha, ne_eq, hq, not_false_eq_true, if_true]
  exact ⟨_, _, rfl, rfl, rfl⟩

/-- The early `return false` of `cuDNNUnfused` after an unsuccessful workspace query leaves the
six descriptors alive. -/
theorem cuDNNUnfused_query_failure_leaks (b : CudnnStub) (op : ConvObj)
    (r : ConvCuDnnPerfRecord) (st : CudaState) (m : cudnnConvolutionMode_t)
    (a : cudnnConvolutionFwdAlgo_t) (hm : MODES[r.mode]? = some m) (ha : ALGOS[r.algo]? = some a)
    (hin : op.numInputs ≤ 2) (hshape : (descriptorsOf b op m).outDesc.dims = op.outDims)
    (hq : (b.getConvolutionForwardWorkspaceSize (descriptorsOf b op m) a).1
      ≠ CUDNN_STATUS_SUCCESS) :
    ∃ st', cuDNNUnfused b op r st = .ok false st' ∧
      st'.liveDescriptors = st.liveDescriptors + 6 := by
  have hnot : ¬ op.numInputs > 2 := by omega
  have hacc := cuDNNDescriptorAccess_eq b op r st m hm
  simp only [hnot, if_false, hshape, if_true] at hacc
  unfold cuDNNUnfused
  simp only [hacc, ha, ne_eq, hq, not_false_eq_true, if_true]
  exact ⟨_, rfl, rfl⟩

end convCudnn

/-- Whenever `cnnlTranspose_v2` does not report success, `TransposeCnnl::compute` returns
normally with the three descriptors it created still alive. -/
theorem transpose_compute_failure_silent (b : CnnlStub) (op : TransposeObj)
    (st : BangState)
    (h : (b.transpose_v2 ⟨op.permute⟩ ⟨.CNNL_LAYOUT_ARRAY, op.dimin⟩ op.aData
        ⟨.CNNL_LAYOUT_ARRAY, op.dimout⟩ st.outData
        (b.getTransposeWorkspaceSize ⟨.CNNL_LAYOUT_ARRAY, op.dimin⟩ ⟨op.permute⟩)).1
      ≠ CNNL_STATUS_SUCCESS) :
    ∃ st', TransposeCnnl.compute b op st = .ok () st' ∧
      st'.liveDescriptors = st.liveDescriptors + 3 := by
  unfold TransposeCnnl.compute
  refine ⟨_, if_pos h, rfl⟩

/-- Whenever `cnnlTrigonForward` does not report success, `TrigonCnnl::compute` returns
normally with the three descriptors it created still alive. -/
theorem trigon_compute_failure_silent (k : TrigonCnnl) (b : CnnlStub) (op : UnaryObj)
    (st : BangState)
    (h : (b.trigonForward ⟨k.getOpType⟩ ⟨.CNNL_LAYOUT_NCHW, op.aDim⟩ op.aData
        ⟨.CNNL_LAYOUT_NCHW, op.cDim⟩ st.outData).1 ≠ CNNL_STATUS_SUCCESS) :
    ∃ st', TrigonCnnl.compute k b op st = .ok () st' ∧
      st'.liveDescriptors = st.liveDescriptors + 3 := by
  unfold TrigonCnnl.compute
  refine ⟨_, if_pos h, rfl⟩

/-- C9 (code at the failing input).  After an execution call that fails, `TransposeCnnl::compute`
and `TrigonCnnl::compute` exit with their three descriptors alive; after a workspace query
that fails, `cuDNNUnfused` exits with its six descriptors alive. -/
theorem compute_early_exit_leaks_descriptors :
    bang0.liveDescriptors = 0 ∧
      (TransposeCnnl.compute cnnlFailing opTranspose bang0).state.liveDescriptors = 3 ∧
      (TrigonCnnl.compute SinCnnl cnnlFailing opUnary bang0).state.liveDescriptors = 3 ∧
      st0.liveDescriptors = 0 ∧
      (convCudnn.cuDNNUnfused stubNone op1x2 untuned st0).state.liveDescriptors = 6 ∧
      (convCudnn.compute stubNone op1x2 (.convCuDnn untuned) st0).state.liveDescriptors = 6 := by
  decide

/-- C10 (code at the failing input).  With a CNNL stub whose execution calls fail after writing
one output element, `TransposeCnnl::compute` and `TrigonCnnl::compute` return normally and the
output buffer holds the partial result; `convCudnn::compute` on a failing backend call
raises the fatal failure of `IT_ASSERT(success)`. -/
theorem bang_compute_returns_normally_on_failure :
    (TransposeCnnl.compute cnnlFailing opTranspose bang0).isOk = true ∧
      (TransposeCnnl.compute cnnlFailing opTranspose bang0).state.outData
        = [1, 0, 0, 0, 0, 0] ∧
      (TrigonCnnl.compute SinCnnl cnnlFailing opUnary bang0).isOk = true ∧
      (TrigonCnnl.compute SinCnnl cnnlFailing opUnary bang0).state.outData
        = [1, 0, 0, 0, 0, 0] ∧
      (convCudnn.compute stubOne op1x2 (.convCuDnn ⟨0, 3, 1, 100000, false⟩) st0).isOk = false := by
  decide

/-! ## Shape mismatch -/

namespace convCudnn

/-- When the shape guard fails for the mode of the record, `cuDNNDescriptorAccess` raises a
fatal failure and the trace of backend calls is unchanged. -/
theorem cuDNNDescriptorAccess_mismatch (b : CudnnStub) (op : ConvObj)
    (r : ConvCuDnnPerfRecord) (st : CudaState) (m : cudnnConvolutionMode_t)
    (hm : MODES[r.mode]? = some m)
    (hmis : (descriptorsOf b op m).outDesc.dims ≠ op.outDims) :
    ∃ e st', cuDNNDescriptorAccess b op r st = .fatal e st' ∧ st'.calls = st.calls := by
  rw [cuDNNDescriptorAccess_eq b op r st m hm]
  by_cases hin : op.numInputs > 2
  · exact ⟨.todoHalt, st, by simp only [hin, if_true], rfl⟩
  · exact ⟨.assertion "cuDNN output shape mismatches with OP output shape",
      st.create.create.create.create.create.create,
      by simp only [hin, if_false, hmis], rfl⟩

theorem compute_mismatch (b : CudnnStub) (op : ConvObj)
    (r : ConvCuDnnPerfRecord) (st : CudaState) (m : cudnnConvolutionMode_t)
    (hm : MODES[r.mode]? = some m)
    (hmis : (descriptorsOf b op m).outDesc.dims ≠ op.outDims) :
    ∃ e st', compute b op (.convCuDnn r) st = .fatal e st' ∧ st'.calls = st.calls := by
  obtain ⟨e, st', hacc, hcalls⟩ := cuDNNDescriptorAccess_mismatch b op r st m hm hmis
  exact ⟨e, st', by simp only [compute, cuDNNUnfused, hacc], hcalls⟩

theorem tuneBody_mismatch (b : CudnnStub) (op : ConvObj) (i j : Nat) (v : TuneVars)
    (st : CudaState) (m : cudnnConvolutionMode_t) (hm : MODES[i]? = some m)
    (hmis : (descriptorsOf b op m).outDesc.dims ≠ op.outDims) :
    ∃ e st', tuneBody b op i j v st = .fatal e st' ∧ st'.calls = st.calls := by
  obtain ⟨e, st', hacc, hcalls⟩ :=
    cuDNNDescriptorAccess_mismatch b op { v.tmp_ret with algo := j, mode := i } st m hm hmis
  exact ⟨e, st', by simp only [tuneBody, hacc], hcalls⟩

/-- C11.  When the output dims the backend computes for the descriptors of the operator differ
from the declared output dims, `compute` with any record (a `ConvCuDnnPerfRecord` whose mode
indexes `MODES`, or an object of dynamic type `PerfRecord`), `compute` without a record and
`tune` all raise a fatal failure, the trace of backend calls is the one they started from (no
workspace query, no workspace request, no forward call), and `tune` returns no record. -/
theorem shape_mismatch_fatal_before_any_call (b : CudnnStub) (op : ConvObj) (time0 : Int)
    (st : CudaState)
    (hmis : ∀ m ∈ MODES, (descriptorsOf b op m).outDesc.dims ≠ op.outDims) :
    (∀ r : ConvCuDnnPerfRecord, r.mode < N_MODE →
        ∃ e st', compute b op (.convCuDnn r) st = .fatal e st' ∧ st'.calls = st.calls) ∧
      (∀ r : PerfRecord,
        ∃ e st', compute b op (.base r) st = .fatal e st' ∧ st'.calls = st.calls) ∧
      (∃ e st', computeDefault b op time0 st = .fatal e st' ∧ st'.calls = st.calls) ∧
      (∃ e st', tune b op time0 st = .fatal e st' ∧ st'.calls = st.calls) ∧
      (∀ r st', tune b op time0 st ≠ .ok r st') := by
  have htune : ∃ e st', tune b op time0 st = .fatal e st' ∧ st'.calls = st.calls := by
    have hmodes : List.range N_MODE = [0, 1] := rfl
    have halgos : List.range N_ALGO = 0 :: [1, 2, 3, 4, 5, 6, 7] := rfl
    obtain ⟨e, st1, hb, hcalls⟩ := tuneBody_mismatch b op 0 0
      ⟨untuned, ConvCuDnnPerfRecord.init time0⟩ st CUDNN_CONVOLUTION rfl
      (hmis CUDNN_CONVOLUTION (by decide))
    have hf : forEach (List.range N_ALGO) (fun j => tuneBody b op 0 j)
        ⟨untuned, ConvCuDnnPerfRecord.init time0⟩ st = .fatal e st1 := by
      rw [halgos]
      exact forEach_cons_fatal _ 0 _ _ _ e st1 hb
    refine ⟨e, st1, tune_of_tuneLoops_fatal b op time0 st st1 e ?_, hcalls⟩
    rw [tuneLoops_def, hmodes, forEach_cons_fatal _ 0 [1] _ _ e st1 hf]
  refine ⟨?_, fun _ => ⟨.badCast, st, rfl, rfl⟩, ?_, htune, ?_⟩
  · intro r hr
    obtain ⟨m, hm, hmem⟩ := mode_lookup hr
    exact compute_mismatch b op r st m hm (hmis m hmem)
  · exact compute_mismatch b op (ConvCuDnnPerfRecord.init time0) st CUDNN_CROSS_CORRELATION rfl
      (hmis CUDNN_CROSS_CORRELATION (by decide))
  · intro r st' h
    obtain ⟨e, st1, hf, -⟩ := htune
    rw [hf] at h
    cases h

/-- A mismatch under one mode only is enough for `tune` to return no record. -/
theorem tune_no_record_of_mismatch (b : CudnnStub) (op : ConvObj) (time0 : Int)
    (st : CudaState) (hmis : ¬ shapeConsistent b op) :
    ∀ r st', tune b op time0 st ≠ .ok r st' :=
  fun r st' h => by
    obtain ⟨ret, hl, -⟩ := tuneLoops_of_tune_ok b op time0 st st' r h
    exact hmis (tuneLoops_ok_guards b op time0 st st' ret hl).2

theorem shape_mismatch_fatal_before_any_call_witness :
    (∀ r : ConvCuDnnPerfRecord, r.mode < N_MODE →
        ∃ e st', compute stubAllEqual opMismatch (.convCuDnn r) st0 = .fatal e st' ∧
          st'.calls = st0.calls) ∧
      (∀ r : PerfRecord,
        ∃ e st', compute stubAllEqual opMismatch (.base r) st0 = .fatal e st' ∧
          st'.calls = st0.calls) ∧
      (∃ e st', computeDefault stubAllEqual opMismatch 0 st0 = .fatal e st' ∧
        st'.calls = st0.calls) ∧
      (∃ e st', tune stubAllEqual opMismatch 0 st0 = .fatal e st' ∧ st'.calls = st0.calls) ∧
      (∀ r st', tune stubAllEqual opMismatch 0 st0 ≠ .ok r st') :=
  shape_mismatch_fatal_before_any_call stubAllEqual opMismatch 0 st0 (by decide)

/-! ## The fusion flag -/

/-- C14.  Two records that agree on `algo` and `mode` give the same result of `compute` from
the same device state: the same outcome (normal return or the same fatal failure), the same
trace of backend calls, the same output buffer and the same live descriptors, whatever their
`fuseAct` flags (and their other fields) are. -/
theorem compute_ignores_fuseAct (b : CudnnStub) (op : ConvObj)
    (r1 r2 : ConvCuDnnPerfRecord) (st : CudaState)
    (halgo : r1.algo = r2.algo) (hmode : r1.mode = r2.mode) :
    compute b op (.convCuDnn r1) st = compute b op (.convCuDnn r2) st := by
  unfold compute cuDNNUnfused cuDNNDescriptorAccess
  dsimp only
  rw [halgo, hmode]

theorem compute_ignores_fuseAct_witness :
    compute stubOne op1x2 (.convCuDnn ⟨7, 2, 1, 100000, true⟩) st0
      = compute stubOne op1x2 (.convCuDnn ⟨7, 2, 1, 100000, false⟩) st0 :=
  compute_ignores_fuseAct stubOne op1x2 ⟨7, 2, 1, 100000, true⟩ ⟨7, 2, 1, 100000, false⟩ st0
    rfl rfl

end convCudnn

/-! ## The default record computes the cross-correlation -/

/-- Under `CUDNN_CROSS_CORRELATION` the operation selected by the descriptors built for `op` is
the cross-correlation of `op`, element by element. -/
theorem convolutionForwardAt_cross (b : CudnnStub) (op : ConvObj) (n k p q : Int) :
    convolutionForwardAt (descriptorsOf b op CUDNN_CROSS_CORRELATION) op.inData op.knData n k p q
      = crossCorrelationAt op n k p q :=
  rfl

/-- With `alpha = 1` and `beta = 0` the buffer left by the forward call under
`CUDNN_CROSS_CORRELATION` is the cross-correlation of `op`, when the output descriptor has the
declared output dims. -/
theorem convolutionForwardOutput_cross (b : CudnnStub) (op : ConvObj) (y : List Int)
    (hshape : (descriptorsOf b op CUDNN_CROSS_CORRELATION).outDesc.dims = op.outDims) :
    convolutionForwardOutput 1 0 (descriptorsOf b op CUDNN_CROSS_CORRELATION)
      op.inData op.knData y = crossCorrelation op := by
  unfold crossCorrelation
  rw [← hshape]
  simp only [cudnnTensorDescriptor_t.dims, convolutionForwardOutput,
    convolutionForwardAt_cross, one_mul, zero_mul, add_zero]

namespace convCudnn

/-- C12.  For a bias-free Conv operator whose declared output dims are the ones the backend
computes, and a backend that accepts the default candidate (algorithm index 0 under mode
index 1), `compute(op, context)` is `compute` with the record `algo = 0`, `mode = 1`; it
returns normally, issues one workspace query, one workspace request and one forward call, for
`ALGOS[0]` under `CUDNN_CROSS_CORRELATION`, and the output buffer then holds the
cross-correlation of input and kernel under the padding, stride and dilation of the
operator. -/
theorem computeDefault_writes_crossCorrelation (b : CudnnStub) (op : ConvObj) (time0 : Int)
    (st : CudaState) (hin : op.numInputs ≤ 2)
    (hshape : (descriptorsOf b op CUDNN_CROSS_CORRELATION).outDesc.dims = op.outDims)
    (hvalid : valid b op 1 0 = true) :
    computeDefault b op time0 st = compute b op (.convCuDnn ⟨time0, 0, 1, 100000, false⟩) st ∧
      ∃ st', computeDefault b op time0 st = .ok () st' ∧
        st'.outData = crossCorrelation op ∧
        (descriptorsOf b op CUDNN_CROSS_CORRELATION).convDesc.mode = CUDNN_CROSS_CORRELATION ∧
        st'.calls = st.calls ++
          [.getConvolutionForwardWorkspaceSize (descriptorsOf b op CUDNN_CROSS_CORRELATION)
              CUDNN_CONVOLUTION_FWD_ALGO_IMPLICIT_GEMM,
            .getWorkspace (b.getConvolutionForwardWorkspaceSize
              (descriptorsOf b op CUDNN_CROSS_CORRELATION)
              CUDNN_CONVOLUTION_FWD_ALGO_IMPLICIT_GEMM).2,
            .convolutionForward (descriptorsOf b op CUDNN_CROSS_CORRELATION)
              CUDNN_CONVOLUTION_FWD_ALGO_IMPLICIT_GEMM
              (b.getConvolutionForwardWorkspaceSize
                (descriptorsOf b op CUDNN_CROSS_CORRELATION)
                CUDNN_CONVOLUTION_FWD_ALGO_IMPLICIT_GEMM).2] := by
  refine ⟨rfl, ?_⟩
  have hm : MODES[(ConvCuDnnPerfRecord.init time0).mode]? = some CUDNN_CROSS_CORRELATION := rfl
  have ha : ALGOS[(ConvCuDnnPerfRecord.init time0).algo]?
      = some CUDNN_CONVOLUTION_FWD_ALGO_IMPLICIT_GEMM := rfl
  have hnot : ¬ op.numInputs > 2 := by omega
  have hacc := cuDNNDescriptorAccess_eq b op (ConvCuDnnPerfRecord.init time0) st
    CUDNN_CROSS_CORRELATION hm
  simp only [hnot, if_false, hshape, if_true] at hacc
  have hs : (b.getConvolutionForwardWorkspaceSize (descriptorsOf b op CUDNN_CROSS_CORRELATION)
        CUDNN_CONVOLUTION_FWD_ALGO_IMPLICIT_GEMM).1 = CUDNN_STATUS_SUCCESS ∧
      b.convolutionForward (descriptorsOf b op CUDNN_CROSS_CORRELATION)
        CUDNN_CONVOLUTION_FWD_ALGO_IMPLICIT_GEMM
        (b.getConvolutionForwardWorkspaceSize (descriptorsOf b op CUDNN_CROSS_CORRELATION)
          CUDNN_CONVOLUTION_FWD_ALGO_IMPLICIT_GEMM).2 = CUDNN_STATUS_SUCCESS := by
    have hv := hvalid
    unfold valid measured at hv
    have h1 : MODES[1]? = some CUDNN_CROSS_CORRELATION := rfl
    have h0 : ALGOS[0]? = some CUDNN_CONVOLUTION_FWD_ALGO_IMPLICIT_GEMM := rfl
    simp only [h1, h0] at hv
    by_contra hneg
    simp only [hneg, if_false] at hv
    cases hv
  unfold computeDefault compute cuDNNUnfused
  simp only [hacc, ha, cudnnConvolutionForward, hs.1, hs.2, ne_eq, not_true_eq_false, if_false,
    if_true]
  refine ⟨_, rfl, ?_, rfl, ?_⟩
  · exact convolutionForwardOutput_cross b op _ hshape
  · simp [destroyDescriptors, CudaState.destroy, CudaState.log, CudaState.create]

theorem computeDefault_writes_crossCorrelation_witness :
    (∃ st', computeDefault stubAllEqual opTest 0 st8 = .ok () st' ∧
        st'.outData = [4794, 4386, 8199, 7506, 11274, 10542, 20835, 19656]) ∧
      (∃ st', computeDefault stubAllEqual opOnes 0 st8 = .ok () st' ∧
        st'.outData = [12, 12, 18, 18, 12, 12, 18, 18]) := by
  obtain ⟨-, st1, h1, ho1, -⟩ := computeDefault_writes_crossCorrelation stubAllEqual opTest 0 st8
    (by decide) (by decide) (by decide)
  obtain ⟨-, st2, h2, ho2, -⟩ := computeDefault_writes_crossCorrelation stubAllEqual opOnes 0 st8
    (by decide) (by decide) (by decide)
  have e1 : crossCorrelation opTest = [4794, 4386, 8199, 7506, 11274, 10542, 20835, 19656] := by
    decide
  have e2 : crossCorrelation opOnes = [12, 12, 18, 18, 12, 12, 18, 18] := by decide
  exact ⟨⟨st1, h1, ho1.trans e1⟩, ⟨st2, h2, ho2.trans e2⟩⟩

end convCudnn

/-! ## Order of the candidates and determinism of the selection -/

theorem forEach_trace {σ τ β : Type} (tr : σ → List β) (I : τ → Prop) (g : Nat → List β)
    (body : Nat → τ → σ → Result σ τ) (ks : List Nat)
    (h : ∀ k ∈ ks, ∀ v st, I v →
      ∃ v' st', body k v st = .ok v' st' ∧ I v' ∧ tr st' = tr st ++ g k) :
    ∀ v st, I v → ∃ v' st', forEach ks body v st = .ok v' st' ∧ I v' ∧
      tr st' = tr st ++ ks.flatMap g := by
  induction ks with
  | nil => intro v st hv; exact ⟨v, st, rfl, hv, by simp⟩
  | cons k ks ih =>
    intro v st hv
    obtain ⟨v1, st1, h1, hI, ht⟩ := h k (List.mem_cons_self _ _) v st hv
    obtain ⟨v2, st2, h2, hI2, ht2⟩ :=
      ih (fun k' hk' => h k' (List.mem_cons_of_mem _ hk')) v1 st1 hI
    refine ⟨v2, st2, ?_, hI2, ?_⟩
    · simp only [forEach, h1, h2]
    · rw [ht2, ht, List.flatMap_cons, List.append_assoc]

theorem destroyDescriptors_calls (st : CudaState) : (destroyDescriptors st).calls = st.calls :=
  rfl

theorem selectFrom_congr (b b2 : CudnnStub) (op op2 : ConvObj) (cs : List (Nat × Nat)) :
    ∀ ret, (∀ c ∈ cs, measured b2 op2 c.1 c.2 = measured b op c.1 c.2) →
      selectFrom b2 op2 cs ret = selectFrom b op cs ret := by
  induction cs with
  | nil => intro ret _; rfl
  | cons x cs ih =>
    intro ret h
    have hx : pick b2 op2 x.1 x.2 ret = pick b op x.1 x.2 ret := by
      unfold pick; rw [h x (List.mem_cons_self _ _)]
    have e2 : selectFrom b2 op2 (x :: cs) ret = selectFrom b2 op2 cs (pick b2 op2 x.1 x.2 ret) :=
      rfl
    have e1 : selectFrom b op (x :: cs) ret = selectFrom b op cs (pick b op x.1 x.2 ret) := rfl
    rw [e2, e1, hx]
    exact ih _ (fun c hc => h c (List.mem_cons_of_mem _ hc))

/-- The workspace queries among the calls of one candidate: exactly one, for that candidate. -/
theorem candidateCalls_queried (b : CudnnStub) (op : ConvObj) (i j : Nat) :
    (candidateCalls b op i j).filterMap BackendCall.queried =
      match MODES[i]?, ALGOS[j]? with
      | some m, some a => [(m, a)]
      | _, _ => [] := by
  cases hm : MODES[i]? with
  | none => simp [candidateCalls, hm]
  | some m =>
    cases ha : ALGOS[j]? with
    | none => simp [candidateCalls, hm, ha]
    | some a =>
      have hmode : (descriptorsOf b op m).convDesc.mode = m := rfl
      simp only [candidateCalls, hm, ha]
      split
      · split <;> simp [BackendCall.queried, hmode]
      · simp [BackendCall.queried, hmode]

namespace convCudnn

/-- The calls issued by one run of the body of the loop of `tune`, when the guards pass. -/
theorem tuneBody_calls (b : CudnnStub) (op : ConvObj) (i j : Nat) (v : TuneVars)
    (st : CudaState) (hin : op.numInputs ≤ 2)
    (hshape : ∀ m, MODES[i]? = some m → (descriptorsOf b op m).outDesc.dims = op.outDims)
    (hi : i < N_MODE) (hj : j < N_ALGO) :
    ∃ v' st', tuneBody b op i j v st = .ok v' st' ∧ True ∧
      st'.calls = st.calls ++ candidateCalls b op i j := by
  obtain ⟨m, hm, -⟩ := mode_lookup hi
  obtain ⟨a, ha⟩ := algo_lookup hj
  have hnot : ¬ op.numInputs > 2 := by omega
  have hacc := cuDNNDescriptorAccess_eq b op { v.tmp_ret with algo := j, mode := i } st m hm
  simp only [hnot, if_false, hshape m hm, if_true] at hacc
  unfold tuneBody
  simp only [hacc, ha]
  by_cases hq : (b.getConvolutionForwardWorkspaceSize (descriptorsOf b op m) a).1
      = CUDNN_STATUS_SUCCESS
  · by_cases hf : b.convolutionForward (descriptorsOf b op m) a
        (b.getConvolutionForwardWorkspaceSize (descriptorsOf b op m) a).2 = CUDNN_STATUS_SUCCESS
    · simp only [hq, hf, cudnnConvolutionForward, ne_eq, not_true_eq_false, if_true, if_false]
      refine ⟨_, _, rfl, trivial, ?_⟩
      simp [candidateCalls, hm, ha, hq, hf, destroyDescriptors, CudaState.destroy,
        CudaState.log, CudaState.create]
    · simp only [hq, hf, cudnnConvolutionForward, ne_eq, not_true_eq_false, not_false_eq_true,
        if_true, if_false]
      refine ⟨_, _, rfl, trivial, ?_⟩
      simp [candidateCalls, hm, ha, hq, hf, CudaState.log, CudaState.create]
  · simp only [hq, ne_eq, not_false_eq_true, if_true]
    refine ⟨_, _, rfl, trivial, ?_⟩
    simp [candidateCalls, hm, ha, hq, CudaState.log, CudaState.create]

/-- The trace of the search of `tune`: the calls of the sixteen candidates, mode by mode. -/
theorem tuneLoops_calls (b : CudnnStub) (op : ConvObj) (time0 : Int) (st st' : CudaState)
    (r : ConvCuDnnPerfRecord) (h : tuneLoops b op time0 st = .ok r st') :
    st'.calls = st.calls ++ (List.range N_MODE).flatMap fun i =>
      (List.range N_ALGO).flatMap fun j => candidateCalls b op i j := by
  obtain ⟨hin, hshape⟩ := tuneLoops_ok_guards b op time0 st st' r h
  obtain ⟨v1, st1, h1, -, ht⟩ := forEach_trace CudaState.calls (fun _ : TuneVars => True)
    (fun i => (List.range N_ALGO).flatMap fun j => candidateCalls b op i j)
    (fun i => forEach (List.range N_ALGO) (fun j => tuneBody b op i j)) (List.range N_MODE)
    (fun i hi v st _ =>
      forEach_trace CudaState.calls (fun _ : TuneVars => True)
        (fun j => candidateCalls b op i j) (fun j => tuneBody b op i j) (List.range N_ALGO)
        (fun j hj v st _ => tuneBody_calls b op i j v st hin
          (fun m hm => hshape m (mem_of_lookup hm)) (List.mem_range.mp hi)
          (List.mem_range.mp hj))
        v st trivial)
    ⟨untuned, ConvCuDnnPerfRecord.init time0⟩ st trivial
  rw [tuneLoops_def, h1] at h
  cases h
  exact ht

theorem queried_candidateCalls_all (b : CudnnStub) (op : ConvObj) :
    ((List.range N_MODE).flatMap fun i =>
      (List.range N_ALGO).flatMap fun j => candidateCalls b op i j).filterMap
        BackendCall.queried = candidateKeys := by
  have hmodes : List.range N_MODE = [0, 1] := rfl
  have halgos : List.range N_ALGO = [0, 1, 2, 3, 4, 5, 6, 7] := rfl
  rw [hmodes, halgos]
  simp only [List.flatMap_cons, List.flatMap_nil, List.filterMap_append, List.filterMap_nil,
    candidateCalls_queried]
  rfl

/-- C13 (amended).  On an operator with at most two inputs whose declared output shape is the
one the backend computes: (1) `tune` returns normally, with the time of the `ret` its search
ends with; (2) the workspace queries it has issued are, in order, those of the sixteen
candidates, mode index 0 with algorithm indices 0..7 and then mode index 1 with algorithm
indices 0..7, one query for each; (3) `ret` is the result of the selection rule, which replaces
the current best only on a strictly smaller measured time, run over the candidates in that
order, so that any other run whose candidates have the same statuses and measured times ends
with the same `ret` and returns the same time; (4) when the time of `ret` is below the
sentinel, every valid candidate with that time was tried no earlier than `ret`. -/
theorem tune_fixed_order_deterministic (b : CudnnStub) (op : ConvObj) (time0 : Int)
    (st : CudaState) (hin : op.numInputs ≤ 2) (hshape : shapeConsistent b op) :
    ∃ ret st', tuneLoops b op time0 st = .ok ret st' ∧
      tune b op time0 st = .ok ⟨ret.time⟩ st' ∧
      (st'.calls.drop st.calls.length).filterMap BackendCall.queried = candidateKeys ∧
      ret = selectFrom b op candidates untuned ∧
      (∀ (b2 : CudnnStub) (op2 : ConvObj) (time2 : Int) (st2 : CudaState),
          op2.numInputs ≤ 2 → shapeConsistent b2 op2 →
          (∀ c ∈ candidates, measured b2 op2 c.1 c.2 = measured b op c.1 c.2) →
          ∃ st2', tuneLoops b2 op2 time2 st2 = .ok ret st2' ∧
            tune b2 op2 time2 st2 = .ok ⟨ret.time⟩ st2') ∧
      (ret.time < DBL_MAX → ∀ i j, measured b op i j = some ret.time →
        ret.mode < i ∨ (ret.mode = i ∧ ret.algo ≤ j)) := by
  obtain ⟨st', h⟩ := tuneLoops_eq_selectFrom b op time0 st hin hshape
  refine ⟨_, st', h, tune_of_tuneLoops_ok b op time0 st st' _ h, ?_, rfl, ?_, ?_⟩
  · rw [tuneLoops_calls b op time0 st st' _ h, List.drop_left]
    exact queried_candidateCalls_all b op
  · intro b2 op2 time2 st2 hin2 hshape2 hsame
    obtain ⟨st2', h2⟩ := tuneLoops_eq_selectFrom b2 op2 time2 st2 hin2 hshape2
    rw [selectFrom_congr b b2 op op2 candidates untuned hsame] at h2
    exact ⟨st2', h2, tune_of_tuneLoops_ok b2 op2 time2 st2 st2' _ h2⟩
  · intro hlt i j hij
    have hlt2 : (selectFrom b op candidates untuned).time < untuned.time := hlt
    obtain ⟨l1, w, l2, hcs, hrec, -, hbefore⟩ := selectFrom_first b op candidates untuned hlt2
    have hmode : (selectFrom b op candidates untuned).mode = w.1 := by rw [hrec]
    have halgo : (selectFrom b op candidates untuned).algo = w.2 := by rw [hrec]
    rw [hmode, halgo]
    have hmem : (i, j) ∈ l1 ++ w :: l2 := hcs ▸ measured_some_mem b op i j _ hij
    have hsorted := candidates_sorted
    rw [hcs] at hsorted
    rcases List.mem_append.mp hmem with h1 | h2
    · exact absurd (hbefore (i, j) h1 _ hij) (lt_irrefl _)
    · rcases List.mem_cons.mp h2 with h | h
      · rw [← h]; right; exact ⟨rfl, le_refl _⟩
      · have := (List.pairwise_cons.mp (List.pairwise_append.mp hsorted).2.1).1 (i, j) h
        rcases this with h | ⟨h, h'⟩
        · left; exact h
        · right; exact ⟨h, le_of_lt h'⟩

theorem tune_fixed_order_deterministic_witness :
    ∃ ret st', tuneLoops stubOne op1x2 0 st0 = .ok ret st' ∧
      tune stubOne op1x2 0 st0 = .ok ⟨ret.time⟩ st' ∧
      (st'.calls.drop st0.calls.length).filterMap BackendCall.queried = candidateKeys ∧
      ret = selectFrom stubOne op1x2 candidates untuned ∧
      (∀ (b2 : CudnnStub) (op2 : ConvObj) (time2 : Int) (st2 : CudaState),
          op2.numInputs ≤ 2 → shapeConsistent b2 op2 →
          (∀ c ∈ candidates, measured b2 op2 c.1 c.2 = measured stubOne op1x2 c.1 c.2) →
          ∃ st2', tuneLoops b2 op2 time2 st2 = .ok ret st2' ∧
            tune b2 op2 time2 st2 = .ok ⟨ret.time⟩ st2') ∧
      (ret.time < DBL_MAX → ∀ i j, measured stubOne op1x2 i j = some ret.time →
        ret.mode < i ∨ (ret.mode = i ∧ ret.algo ≤ j)) :=
  tune_fixed_order_deterministic stubOne op1x2 0 st0 (by decide) (by decide)

/-- C13 (counterexample).  Every candidate is valid and measured at the sentinel time, so all
sixteen are tied for the minimum.  The search of `tune` never replaces its starting `ret`: it
ends with mode index 1 and algorithm index 0, although candidate (mode 0, algorithm 0) is
valid with the same time and was tried first. -/
theorem tune_sentinel_tie_not_earliest :
    (∀ c ∈ candidates, measured stubSentinel op1x2 c.1 c.2 = some DBL_MAX) ∧
      ∃ ret st', tuneLoops stubSentinel op1x2 0 st0 = .ok ret st' ∧
        tune stubSentinel op1x2 0 st0 = .ok ⟨ret.time⟩ st' ∧
        measured stubSentinel op1x2 0 0 = some ret.time ∧
        ¬ (ret.mode < 0 ∨ (ret.mode = 0 ∧ ret.algo ≤ 0)) :=
  ⟨by decide, untuned, (tuneLoops stubSentinel op1x2 0 st0).state, by rfl, by rfl, by decide,
    by decide⟩

end convCudnn

/-- The candidates as values: each of the sixteen occurs once. -/
theorem candidateKeys_nodup : candidateKeys.Nodup := by
  decide

theorem candidateKeys_length : candidateKeys.length = 16 :=
  rfl

/-- With stride 2 and dilation 1 in both spatial dims the operator of the test has the same
output shape and another output. -/
theorem crossCorrelation_opUniform :
    crossCorrelation opUniform = [4521, 7014, 7830, 11952, 10515, 16734, 19737, 30906] := by
  decide

end infini
